import Mathlib

/-!
Verification of the `vstructure` validation pipeline
(CSV loader, transformer, comparator, reporting) against its
natural-language specification.

Python strings are modelled as `List Char` (ASCII scope), Python `dict`s
as insertion-ordered association lists with overwrite-in-place semantics
(`aset` / `alookup`), and fallible calls (`try`/`except`) as `Except`.
Free-text error `message` strings are elided from error values; the
structured fields (code, severity, scope, indices, rule id) are kept.
-/

namespace DxSentinel

/-- Python `str` restricted to its character sequence. -/
abbrev Str := List Char

/-- Python `str.strip()` (ASCII whitespace). -/
def pyStrip (s : Str) : Str :=
  ((s.dropWhile Char.isWhitespace).reverse.dropWhile Char.isWhitespace).reverse

/-- Python `str.lower()` (ASCII scope). -/
def strLower (s : Str) : Str := s.map Char.toLower

/-- Python `c in s` for a single character. -/
def strContainsChar (s : Str) (c : Char) : Bool := s.any (fun a => a == c)

/-- Python `needle in hay` (substring containment). -/
def strContainsSub (needle hay : Str) : Bool :=
  hay.tails.any (fun t => needle.isPrefixOf t)

/-- Python `s.startswith(p)`. -/
def strStartsWith (s p : Str) : Bool := p.isPrefixOf s

/-- Python `s.split(sep)` for a one-character separator. -/
def splitOnChar (sep : Char) : Str → List Str
  | [] => [[]]
  | c :: cs =>
    match splitOnChar sep cs with
    | [] => [[]]
    | t :: ts => if c = sep then [] :: t :: ts else (c :: t) :: ts

/-- Python `sep.join(parts)` for a one-character separator. -/
def joinWith (sep : Char) : List Str → Str
  | [] => []
  | [s] => s
  | s :: s' :: rest => s ++ sep :: joinWith sep (s' :: rest)

/-- Decimal rendering of a natural number (Python `str(n)` / f-string). -/
def natToStr (n : Nat) : Str := (Nat.repr n).toList

/-! ### Association lists: Python `dict` -/

/-- Python `d.get(k)` / `d[k]`: first (unique) binding for `k`. -/
def alookup {κ α : Type} [DecidableEq κ] : List (κ × α) → κ → Option α
  | [], _ => none
  | (k', v) :: rest, k => if k' = k then some v else alookup rest k

/-- Python `d[k] = v`: replace in place, append if absent
(insertion-ordered dict semantics). -/
def aset {κ α : Type} [DecidableEq κ] : List (κ × α) → κ → α → List (κ × α)
  | [], k, v => [(k, v)]
  | (k', v') :: rest, k, v =>
    if k' = k then (k, v) :: rest else (k', v') :: aset rest k v

/-! ## Transformer data model (`transformer/models.py`) -/

inductive TransformationSeverity
  | FATAL
  | ERROR
  | WARNING
deriving DecidableEq, Repr

/-- `TransformationError` (free-text `message` elided; `details["reason"]`
and `details["parsed_parts"]` are likewise elided). -/
structure TransformationError where
  code : String
  severity : TransformationSeverity
  row_index : Option Nat := none
  column_name : Option Str := none
  value : Option Str := none
deriving DecidableEq, Repr

/-- `ParsedColumn`; `full_path` is set by `__post_init__` to
`element_id.field_id`. -/
structure ParsedColumn where
  original_name : Str
  element_id : Str
  field_id : Str
  is_country_specific : Bool := false
  country_code : Option Str := none
  full_path : Str
deriving DecidableEq, Repr

/-- `ParsedColumn(...)` constructor including `__post_init__`. -/
def mkParsedColumn (original_name element_id field_id : Str)
    (is_country_specific : Bool) (country_code : Option Str) : ParsedColumn :=
  { original_name := original_name
    element_id := element_id
    field_id := field_id
    is_country_specific := is_country_specific
    country_code := country_code
    full_path := element_id ++ '.' :: field_id }

namespace TransformerErrors

/-- `TransformerErrors.invalid_column_composition`. -/
def invalidColumnComposition (column_name : Str) : TransformationError :=
  { code := "INVALID_COLUMN_COMPOSITION"
    severity := TransformationSeverity.ERROR
    column_name := some column_name }

/-- `TransformerErrors.row_transformation_error`
(the formatted column label `col_{col_index}` is kept). -/
def rowTransformationError (row_index col_index : Nat) : TransformationError :=
  { code := "ROW_TRANSFORMATION_ERROR"
    severity := TransformationSeverity.ERROR
    row_index := some row_index
    column_name := some ("col_".toList ++ natToStr col_index) }

end TransformerErrors

/-! ## Column parser (`transformer/column_parser.py`) -/

/-- `COMPOUND_ELEMENTS` from `ColumnParser.parse_column`. -/
def COMPOUND_ELEMENTS : List Str :=
  [ "homeAddress_home".toList, "homeAddress_fiscal".toList,
    "workPermitInfo_RFC".toList, "workPermitInfo_IMMS".toList,
    "globalInfo".toList, "biographicalInfoLoc".toList ]

/-- Python `str.isupper()` on ASCII: at least one cased character and no
lowercase cased character. -/
def pyIsUpper (s : Str) : Bool :=
  s.any (fun c => c.isAlpha) && s.all (fun c => !c.isLower)

/-- Python `str.isalpha()` on ASCII (nonempty, all alphabetic). -/
def pyIsAlpha (s : Str) : Bool :=
  !s.isEmpty && s.all (fun c => c.isAlpha)

/-- `ColumnParser._looks_like_country_code`.  The `common_countries`
membership test only short-circuits a `return True`, so the function
reduces to the length/case/alpha checks. -/
def looksLikeCountryCode (code : Str) : Bool :=
  if code.isEmpty then false
  else if !(decide (2 ≤ code.length) && decide (code.length ≤ 3)) then false
  else if !pyIsUpper code then false
  else if !pyIsAlpha code then false
  else true

/-- `ColumnParser.parse_column`.  Mirrors the source's
`(Optional[ParsedColumn], Optional[TransformationError])` return shape.
`DUPLICATED_ELEMENTS` is defined in the source but never read, so it is
not modelled. -/
def parseColumn (column_name0 : Str) : Option ParsedColumn × Option TransformationError :=
  if column_name0.isEmpty then
    (none, some (TransformerErrors.invalidColumnComposition column_name0))
  else
    let column_name := pyStrip column_name0
    if !strContainsChar column_name '_' then
      (none, some (TransformerErrors.invalidColumnComposition column_name))
    else
      let parts := splitOnChar '_' column_name
      -- country-scoped branch
      if 3 ≤ parts.length ∧ looksLikeCountryCode (parts.getD 0 []) then
        let country_code := parts.getD 0 []
        if 4 ≤ parts.length then
          let potential_compound := parts.getD 1 [] ++ '_' :: parts.getD 2 []
          if potential_compound ∈ COMPOUND_ELEMENTS then
            parseFinish column_name potential_compound
              (joinWith '_' (parts.drop 3)) true (some country_code)
          else
            parseFinish column_name (parts.getD 1 [])
              (joinWith '_' (parts.drop 2)) true (some country_code)
        else if parts.length = 3 then
          parseFinish column_name (parts.getD 1 []) (parts.getD 2 [])
            true (some country_code)
        else
          (none, some (TransformerErrors.invalidColumnComposition column_name))
      else
        -- non-CSF branch
        if 2 ≤ parts.length then
          let potential_compound := parts.getD 0 [] ++ '_' :: parts.getD 1 []
          if potential_compound ∈ COMPOUND_ELEMENTS ∧ 3 ≤ parts.length then
            parseFinish column_name potential_compound
              (joinWith '_' (parts.drop 2)) false none
          else
            parseFinish column_name (parts.getD 0 [])
              (joinWith '_' (parts.drop 1)) false none
        else
          (none, some (TransformerErrors.invalidColumnComposition column_name))
where
  /-- The shared tail of `parse_column`: the emptiness checks on
  `element_id`/`field_id` and the `ParsedColumn` construction. -/
  parseFinish (column_name element_id field_id : Str) (is_country_specific : Bool)
      (country_code : Option Str) : Option ParsedColumn × Option TransformationError :=
    if element_id.isEmpty then
      (none, some (TransformerErrors.invalidColumnComposition column_name))
    else if field_id.isEmpty then
      (none, some (TransformerErrors.invalidColumnComposition column_name))
    else
      (some (mkParsedColumn column_name element_id field_id
        is_country_specific country_code), none)

/-- `ColumnParser.parse_all_columns`: parses the header, keeping
positional alignment through placeholder columns. -/
def parseAllColumns (column_names : List Str) : List ParsedColumn × List TransformationError :=
  go 0 column_names
where
  go (col_index : Nat) : List Str → List ParsedColumn × List TransformationError
    | [] => ([], [])
    | column_name :: rest =>
      let r := go (col_index + 1) rest
      match parseColumn column_name with
      | (_, some e) =>
        (mkParsedColumn column_name ("ERROR_".toList ++ natToStr col_index)
          column_name false none :: r.1, e :: r.2)
      | (some pc, none) => (pc :: r.1, r.2)
      | (none, none) =>
        (mkParsedColumn column_name ("UNKNOWN_".toList ++ natToStr col_index)
          column_name false none :: r.1,
         TransformerErrors.invalidColumnComposition column_name :: r.2)

/-! ## CSV loader data model (`csv_loader/models.py`) -/

inductive ErrorSeverity
  | FATAL
  | ERROR
  | WARNING
deriving DecidableEq, Repr

/-- `NormalizedError` (free-text `message` elided). -/
structure NormalizedError where
  code : String
  severity : ErrorSeverity
  row_index : Option Nat := none
  column_index : Option Nat := none
  value : Option Str := none
deriving DecidableEq, Repr

/-- The fields of `CsvContext` that the structure detector populates
(encoding/dialect/stream handles are carried opaquely by the source
object and play no role in the detected structure). -/
structure CsvContext where
  columns : List Str := []
  total_columns : Nat := 0
  errors : List NormalizedError := []
  label_row_present : Bool := false
  data_start_index : Nat := 2
deriving DecidableEq, Repr

namespace CsvLoaderErrors

/-- `CsvLoaderErrors.empty_file`. -/
def emptyFile : NormalizedError :=
  { code := "EMPTY_FILE", severity := ErrorSeverity.FATAL }

/-- `CsvLoaderErrors.missing_header_row`. -/
def missingHeaderRow : NormalizedError :=
  { code := "MISSING_HEADER_ROW", severity := ErrorSeverity.FATAL }

/-- `CsvLoaderErrors.empty_column_name`. -/
def emptyColumnName (row_index col_index : Nat) : NormalizedError :=
  { code := "EMPTY_COLUMN_NAME", severity := ErrorSeverity.FATAL
    row_index := some row_index, column_index := some col_index }

/-- `CsvLoaderErrors.duplicated_column`. -/
def duplicatedColumn (row_index col_index : Nat) (column_name : Str) : NormalizedError :=
  { code := "DUPLICATED_COLUMN", severity := ErrorSeverity.FATAL
    row_index := some row_index, column_index := some col_index
    value := some column_name }

/-- `CsvLoaderErrors.invalid_column_identifier`. -/
def invalidColumnIdentifier (row_index col_index : Nat) (column_name : Str) :
    NormalizedError :=
  { code := "INVALID_COLUMN_IDENTIFIER", severity := ErrorSeverity.FATAL
    row_index := some row_index, column_index := some col_index
    value := some column_name }

/-- `CsvLoaderErrors.label_column_mismatch`. -/
def labelColumnMismatch (row_index : Nat) : NormalizedError :=
  { code := "LABEL_COLUMN_MISMATCH", severity := ErrorSeverity.ERROR
    row_index := some row_index }

/-- `CsvLoaderErrors.no_data_rows`. -/
def noDataRows : NormalizedError :=
  { code := "NO_DATA_ROWS", severity := ErrorSeverity.WARNING }

/-- `CsvLoaderErrors.row_column_mismatch`. -/
def rowColumnMismatch (row_index : Nat) : NormalizedError :=
  { code := "ROW_COLUMN_COUNT_MISMATCH", severity := ErrorSeverity.ERROR
    row_index := some row_index }

/-- `CsvLoaderErrors.encoding_detection_failed`. -/
def encodingDetectionFailed : NormalizedError :=
  { code := "ENCODING_DETECTION_FAILED", severity := ErrorSeverity.FATAL }

/-- `CsvLoaderErrors.invalid_characters`. -/
def invalidCharacters (row_index col_index : Nat) : NormalizedError :=
  { code := "INVALID_CHARACTERS", severity := ErrorSeverity.ERROR
    row_index := some row_index, column_index := some col_index }

end CsvLoaderErrors

/-! ## Structure detector (`csv_loader/detector.py`) -/

/-- `StructureDetector._validate_header_row`, with the `seen_columns` set
threaded explicitly (the source iterates with `enumerate`). -/
def validateHeaderRowAux (row_index : Nat) : List Str → Nat → List Str →
    Option NormalizedError
  | [], _, _ => none
  | column :: rest, i, seen =>
    if (pyStrip column).isEmpty then
      some (CsvLoaderErrors.emptyColumnName row_index i)
    else
      let column_str := pyStrip column
      if column_str ∈ seen then
        some (CsvLoaderErrors.duplicatedColumn row_index i column_str)
      else if !strContainsChar column_str '_' then
        some (CsvLoaderErrors.invalidColumnIdentifier row_index i column_str)
      else
        validateHeaderRowAux row_index rest (i + 1) (column_str :: seen)

/-- `StructureDetector._validate_header_row`. -/
def validateHeaderRow (header_row : List Str) : Option NormalizedError :=
  if header_row.isEmpty then some CsvLoaderErrors.missingHeaderRow
  else validateHeaderRowAux 0 header_row 0 []

/-- `StructureDetector.detect_structure`, over the physical rows the CSV
reader yields for the file (the source reads at most the first 3). -/
def detectStructure (allRows : List (List Str)) :
    Option CsvContext × Option NormalizedError :=
  let rows := allRows.take 3
  if rows.isEmpty then (none, some CsvLoaderErrors.emptyFile)
  else
    match validateHeaderRow (rows.getD 0 []) with
    | some header_error => (none, some header_error)
    | none =>
      let total_columns := (rows.getD 0 []).length
      let errs_label :=
        if 1 < rows.length ∧ (rows.getD 1 []).length ≠ total_columns then
          [CsvLoaderErrors.labelColumnMismatch 1]
        else []
      let errs_data :=
        if 2 < rows.length then
          if (rows.getD 2 []).length ≠ total_columns then
            [CsvLoaderErrors.rowColumnMismatch 2]
          else []
        else [CsvLoaderErrors.noDataRows]
      (some { columns := rows.getD 0 []
              total_columns := total_columns
              errors := errs_label ++ errs_data
              label_row_present := true
              data_start_index := 2 }, none)

/-! ## Batch reader (`csv_loader/reader.py`) -/

/-- `BatchReader.BATCH_SIZE`. -/
def BATCH_SIZE : Nat := 10000

/-- The row loop of `BatchReader.read_batches` after the header skip:
`row_index` is the running file index and `batch` the batch under
construction.  Returns the yielded batches and the accumulated
row-level errors. -/
def readBatchesAux (total_columns B : Nat) :
    List (List Str) → Nat → List (List Str) →
    List (List (List Str)) × List NormalizedError
  | [], _, batch => (if batch.isEmpty then [] else [batch], [])
  | row :: rest, row_index, batch =>
    if row.length ≠ total_columns then
      let r := readBatchesAux total_columns B rest (row_index + 1) batch
      (r.1, CsvLoaderErrors.rowColumnMismatch row_index :: r.2)
    else
      let batch' := batch ++ [row]
      if B ≤ batch'.length then
        let r := readBatchesAux total_columns B rest (row_index + 1) []
        (batch' :: r.1, r.2)
      else
        readBatchesAux total_columns B rest (row_index + 1) batch'

/-- `BatchReader.read_batches` over the file's physical rows: skip
exactly `data_start_index` rows, then stream batches. -/
def readBatches (rows : List (List Str)) (context : CsvContext) :
    List (List (List Str)) × List NormalizedError :=
  readBatchesAux context.total_columns BATCH_SIZE
    (rows.drop context.data_start_index) context.data_start_index []

/-! ## Encoding resolver (`csv_loader/encoding.py`) -/

/-- `EncodingResolver.ENCODING_PRIORITY`. -/
def ENCODING_PRIORITY : List String :=
  ["utf-8-sig", "utf-8", "latin-1", "cp1252", "iso-8859-1"]

/-- The alias-normalisation map from the confident branch of
`detect_encoding`. -/
def encodingAliasMap : List (String × String) :=
  [("utf-8", "utf-8"), ("utf-8-sig", "utf-8-sig"), ("ascii", "utf-8"),
   ("windows-1252", "cp1252"), ("iso-8859-1", "latin-1")]

/-- The outcome of the `chardet` call and of `raw_data.decode(...)`
attempts on the sampled bytes, abstracted as an oracle (these are
external-library effects on the byte sample). `decodesStrict e` models
`raw_data.decode(e, errors="strict")` succeeding; `decodesReplace e`
models `raw_data.decode(e, errors="replace")` raising no `LookupError`. -/
structure DecodeOracle where
  chardetEncoding : String
  chardetConfidence : ℚ
  decodesStrict : String → Bool
  decodesReplace : String → Bool

/-- The strict-decode fallback loop of `detect_encoding`
(`for encoding in ENCODING_PRIORITY: try decode strict ... continue`). -/
def strictFallbackLoop (o : DecodeOracle) : List String → Option String
  | [] => none
  | e :: rest =>
    if o.decodesStrict e then some e else strictFallbackLoop o rest

/-- The substitution-decode fallback loop of `detect_encoding`
(`errors="replace"`, catching only `LookupError`). -/
def replaceFallbackLoop (o : DecodeOracle) : List String → Option String
  | [] => none
  | e :: rest =>
    if o.decodesReplace e then some e else replaceFallbackLoop o rest

/-- Lines 61–77 of `detect_encoding`: the fallback cascade shared by the
non-confident path and a failed confident verification. -/
def encodingFallback (o : DecodeOracle) : Option String × Option NormalizedError :=
  match strictFallbackLoop o ENCODING_PRIORITY with
  | some enc => (some enc, none)
  | none =>
    match replaceFallbackLoop o ENCODING_PRIORITY with
    | some enc => (some enc, some (CsvLoaderErrors.invalidCharacters 0 0))
    | none => (none, some CsvLoaderErrors.encodingDetectionFailed)

/-- `EncodingResolver.detect_encoding` over the sampled bytes (first
10 KB) and the decode oracle. -/
def detectEncoding (raw_data : List Nat) (o : DecodeOracle) :
    Option String × Option NormalizedError :=
  if raw_data.isEmpty then (none, some CsvLoaderErrors.emptyFile)
  else
    let detected_encoding := o.chardetEncoding.toLower
    if (7 : ℚ)/10 < o.chardetConfidence ∧ detected_encoding ≠ "" then
      let normalized := (alookup encodingAliasMap detected_encoding).getD
        detected_encoding
      if o.decodesStrict normalized then (some normalized, none)
      else encodingFallback o
    else encodingFallback o

/-! ## Entity data and row transformer (`transformer/models.py`,
`transformer/row_transformer.py`) -/

/-- In-place value update at an existing key (no-op when the key is
absent; the sources only call it on keys they have just checked). -/
def amodify {κ α : Type} [DecidableEq κ] : List (κ × α) → κ → (α → α) → List (κ × α)
  | [], _, _ => []
  | (k', v) :: rest, k, f =>
    if k' = k then (k', f v) :: rest else (k', v) :: amodify rest k f

/-- `EntityData` (the transformer's per-entity column grouping). -/
structure EntityData where
  entity_id : Str
  columns : List ParsedColumn := []
  field_mapping : List (Str × ParsedColumn) := []
  column_index_mapping : List (Nat × ParsedColumn) := []
deriving Repr

/-- `TransformedRow`. -/
structure TransformedRow where
  original_row_index : Nat
  csv_row_index : Nat
  data_by_entity : List (Str × List (Str × Str)) := []
  raw_values : List Str := []
  errors : List TransformationError := []
deriving Repr

/-- One iteration of the column loop in `RowTransformer.transform_row`
(`for col_index, value in enumerate(row_values)`). -/
def transformRowStep (row_index : Nat) (column_to_entity_map : List (Nat × Str))
    (entities : List (Str × EntityData)) (acc : TransformedRow)
    (p : Nat × Str) : TransformedRow :=
  let col_index := p.1
  let value := p.2
  if column_to_entity_map.length ≤ col_index then
    { acc with errors := acc.errors ++
        [TransformerErrors.rowTransformationError row_index col_index] }
  else
    match alookup column_to_entity_map col_index with
    | none =>
      { acc with errors := acc.errors ++
          [TransformerErrors.rowTransformationError row_index col_index] }
    | some entity_id =>
      if entity_id.isEmpty then
        { acc with errors := acc.errors ++
            [TransformerErrors.rowTransformationError row_index col_index] }
      else
        match alookup entities entity_id with
        | none =>
          { acc with errors := acc.errors ++
              [TransformerErrors.rowTransformationError row_index col_index] }
        | some entity_data =>
          match alookup entity_data.column_index_mapping col_index with
          | none =>
            { acc with errors := acc.errors ++
                [TransformerErrors.rowTransformationError row_index col_index] }
          | some column_info =>
            { acc with data_by_entity := (amodify acc.data_by_entity entity_id
                (fun d => aset d column_info.field_id value)) }

/-- `RowTransformer.transform_row`. -/
def transformRow (row_values : List Str) (row_index csv_start_index : Nat)
    (column_to_entity_map : List (Nat × Str))
    (entities : List (Str × EntityData)) : TransformedRow :=
  let init : TransformedRow :=
    { original_row_index := row_index
      csv_row_index := csv_start_index + row_index
      data_by_entity := entities.map (fun p => (p.1, []))
      raw_values := row_values
      errors := [] }
  row_values.enum.foldl
    (transformRowStep row_index column_to_entity_map entities) init

/-- `RowTransformer.transform_batch`: the per-row "absolute" index is
computed as `batch_index * len(batch_rows) + row_offset`. -/
def transformBatch (batch_rows : List (List Str)) (batch_index csv_start_index : Nat)
    (column_to_entity_map : List (Nat × Str))
    (entities : List (Str × EntityData)) : List TransformedRow :=
  batch_rows.enum.map (fun p =>
    transformRow p.2 (batch_index * batch_rows.length + p.1) csv_start_index
      column_to_entity_map entities)

/-! ## Comparator data model (`comparator/models.py`) -/

inductive ValidationSeverity
  | FATAL
  | ERROR
  | WARNING
deriving DecidableEq, Repr

inductive ValidationScope
  | GLOBAL
  | ENTITY
  | ROW
  | FIELD
deriving DecidableEq, Repr

/-- `ValidationError` (free-text `message`, `expected`, `actual` and the
`details` dict are elided except for `details["rule_id"]`, the one
structured detail a claim depends on). -/
structure ValidationError where
  code : String
  severity : ValidationSeverity
  scope : ValidationScope
  row_index : Option Nat := none
  csv_row_index : Option Nat := none
  entity_id : Option Str := none
  field_id : Option Str := none
  column_name : Option Str := none
  metadata_path : Option Str := none
  details_rule_id : Option String := none
  person_id_external : Option Str := none
deriving DecidableEq, Repr

/-- `FieldMetadata` (`allowed_values`, `metadata_node` and the raw
`attributes` map are elided: no rule reads them). -/
structure FieldMetadata where
  element_id : Str
  field_id : Str
  full_path : Str
  is_required : Bool := false
  data_type : Option Str := none
  max_length : Option Nat := none
  pattern : Option Str := none
  is_country_specific : Bool := false
  country_code : Option Str := none
deriving DecidableEq, Repr

/-- `EntityMetadata`; the Python `set` of required field ids is modelled
as a duplicate-free list in insertion order. -/
structure EntityMetadata where
  entity_id : Str
  fields : List (Str × FieldMetadata) := []
  required_fields : List Str := []
  is_country_specific : Bool := false
  country_code : Option Str := none
deriving DecidableEq, Repr

/-- Python `set.add`. -/
def setAdd (s : List Str) (x : Str) : List Str :=
  if x ∈ s then s else s ++ [x]

/-- `MetadataContext` (`stats` elided). -/
structure MetadataContext where
  source_instance : String := ""
  source_version : String := ""
  entities : List (Str × EntityMetadata) := []
  field_by_full_path : List (Str × FieldMetadata) := []
deriving DecidableEq, Repr

/-- `BatchValidationResult` (`validation_time` elided: wall-clock time). -/
structure BatchValidationResult where
  batch_index : Nat
  processed_rows : Nat
  errors : List ValidationError
deriving Repr

namespace ComparatorErrors

/-- `ComparatorErrors.missing_metadata_for_field`. -/
def missingMetadataForField (field_path : Str) : ValidationError :=
  { code := "MISSING_METADATA_FOR_FIELD"
    severity := ValidationSeverity.WARNING
    scope := ValidationScope.GLOBAL
    metadata_path := some field_path }

/-- `ComparatorErrors.rule_execution_failed`. -/
def ruleExecutionFailed (rule_id : String) (person_id_external : Option Str) :
    ValidationError :=
  { code := "RULE_EXECUTION_FAILED"
    severity := ValidationSeverity.FATAL
    scope := ValidationScope.GLOBAL
    details_rule_id := some rule_id
    person_id_external := person_id_external }

/-- `ComparatorErrors.required_value_missing`. -/
def requiredValueMissing (row_index csv_row_index : Nat)
    (entity_id field_id column_name : Str) (person_id_external : Option Str) :
    ValidationError :=
  { code := "REQUIRED_VALUE_MISSING"
    severity := ValidationSeverity.ERROR
    scope := ValidationScope.ROW
    row_index := some row_index
    csv_row_index := some csv_row_index
    entity_id := some entity_id
    field_id := some field_id
    column_name := some column_name
    person_id_external := person_id_external }

/-- `ComparatorErrors.invalid_data_type` (`expected`/`actual` elided). -/
def invalidDataType (row_index csv_row_index : Nat)
    (entity_id field_id column_name : Str) (person_id_external : Option Str) :
    ValidationError :=
  { code := "INVALID_DATA_TYPE"
    severity := ValidationSeverity.ERROR
    scope := ValidationScope.FIELD
    row_index := some row_index
    csv_row_index := some csv_row_index
    entity_id := some entity_id
    field_id := some field_id
    column_name := some column_name
    person_id_external := person_id_external }

/-- `ComparatorErrors.max_length_exceeded` (`expected`/`actual`/value
preview elided). -/
def maxLengthExceeded (row_index csv_row_index : Nat)
    (entity_id field_id column_name : Str) (person_id_external : Option Str) :
    ValidationError :=
  { code := "MAX_LENGTH_EXCEEDED"
    severity := ValidationSeverity.ERROR
    scope := ValidationScope.FIELD
    row_index := some row_index
    csv_row_index := some csv_row_index
    entity_id := some entity_id
    field_id := some field_id
    column_name := some column_name
    person_id_external := person_id_external }

end ComparatorErrors

/-! ## Rule contracts and built-in FIELD rules
(`comparator/validators/base_rule.py`, `not_null.py`, `data_type.py`,
`max_length.py`).  A rule's fallible `validate` is modelled as
`Except String ...`: `Except.error` is an uncaught Python exception. -/

/-- The keyword arguments `RuleEngine._validate_field` passes to a FIELD
rule's `validate` (the `context` argument is elided: no built-in FIELD
rule reads it). -/
structure FieldRuleInput where
  entity_id : Str
  field_metadata : FieldMetadata
  value : Option Str
  row_index : Nat
  csv_row_index : Nat
  column_name : Option Str
  person_id_external : Option Str

/-- A FIELD-scope rule. -/
structure FieldRule where
  rule_id : String
  should_skip : FieldMetadata → Option Str → Bool
  validate : FieldRuleInput → Except String (List ValidationError)

/-- A GLOBAL- or ENTITY-scope rule over an opaque context `γ`. -/
structure ScopedRule (γ : Type) where
  rule_id : String
  validate : γ → Except String (List ValidationError)

/-- Python `column_name or f"{entity_id}_{field_id}"` (falsy = `None` or
empty). -/
def pyOrStr (a : Option Str) (b : Str) : Str :=
  match a with
  | some s => if s.isEmpty then b else s
  | none => b

/-- `NotNullRule` (the `entity_id/row_index/csv_row_index is None`
precondition checks are vacuous here: the engine always passes them). -/
def notNullRule : FieldRule :=
  { rule_id := "not_null"
    should_skip := fun field_metadata _ => !field_metadata.is_required
    validate := fun inp =>
      if !inp.field_metadata.is_required then .ok []
      else
        let is_null_or_empty := match inp.value with
          | none => true
          | some v => (pyStrip v).isEmpty
        if is_null_or_empty then
          .ok [ComparatorErrors.requiredValueMissing inp.row_index
            inp.csv_row_index inp.entity_id inp.field_metadata.field_id
            (pyOrStr inp.column_name
              (inp.entity_id ++ '_' :: inp.field_metadata.field_id))
            inp.person_id_external]
        else .ok [] }

/-- Python `str.isdigit()`-style check for a non-empty digit run. -/
def digitsNonempty (s : Str) : Bool := !s.isEmpty && s.all Char.isDigit

/-- `re.match(r'^-?\d+(\.\d+)?$', value)`. -/
def matchesNumber (s : Str) : Bool :=
  let t := match s with
    | '-' :: rest => rest
    | _ => s
  match splitOnChar '.' t with
  | [a] => digitsNonempty a
  | [a, b] => digitsNonempty a && digitsNonempty b
  | _ => false

/-- `re.match(r'^-?\d+$', value)`. -/
def matchesInteger (s : Str) : Bool :=
  match s with
  | '-' :: rest => digitsNonempty rest
  | _ => digitsNonempty s

/-- The boolean literals of `TYPE_PATTERNS["boolean"]`. -/
def BOOLEAN_LITERALS : List Str :=
  ["true".toList, "false".toList, "0".toList, "1".toList,
   "yes".toList, "no".toList]

/-- `re.match(r'^(true|false|0|1|yes|no)$', value, re.IGNORECASE)`. -/
def matchesBoolean (s : Str) : Bool := strLower s ∈ BOOLEAN_LITERALS

/-- `re.match(r'^\d{4}-\d{2}-\d{2}$', value, ...)`. -/
def matchesDateFormat (s : Str) : Bool :=
  match s with
  | [a, b, c, d, h1, e, f, h2, g, h] =>
    a.isDigit && b.isDigit && c.isDigit && d.isDigit && (h1 == '-') &&
    e.isDigit && f.isDigit && (h2 == '-') && g.isDigit && h.isDigit
  | _ => false

def digitVal (c : Char) : Nat := c.toNat - 48

def isLeapYear (y : Nat) : Bool :=
  (y % 4 == 0 && y % 100 != 0) || y % 400 == 0

def daysInMonth (y m : Nat) : Nat :=
  if m = 2 then (if isLeapYear y then 29 else 28)
  else if m = 4 ∨ m = 6 ∨ m = 9 ∨ m = 11 then 30
  else 31

/-- `datetime.strptime(value, "%Y-%m-%d")` succeeding on a string that
already matches the date regex: proleptic-Gregorian calendar check with
`datetime`'s year range 1–9999. -/
def strptimeDateValid (s : Str) : Bool :=
  match s with
  | [a, b, c, d, _, e, f, _, g, h] =>
    let y := 1000 * digitVal a + 100 * digitVal b + 10 * digitVal c + digitVal d
    let m := 10 * digitVal e + digitVal f
    let dd := 10 * digitVal g + digitVal h
    decide (1 ≤ y) && decide (1 ≤ m) && decide (m ≤ 12) &&
    decide (1 ≤ dd) && decide (dd ≤ daysInMonth y m)
  | _ => false

/-- `re.match(r'^\d{4}-\d{2}-\d{2}[T\s]\d{2}:\d{2}:\d{2}', value, ...)`
— prefix-anchored only (no trailing `$`), so any suffix is allowed. -/
def matchesDatetime (s : Str) : Bool :=
  match s with
  | a :: b :: c :: d :: h1 :: e :: f :: h2 :: g :: h :: sep :: p :: q ::
      c1 :: r :: t :: c2 :: u :: v :: _ =>
    a.isDigit && b.isDigit && c.isDigit && d.isDigit && (h1 == '-') &&
    e.isDigit && f.isDigit && (h2 == '-') && g.isDigit && h.isDigit &&
    (sep == 'T' || sep.isWhitespace) &&
    p.isDigit && q.isDigit && (c1 == ':') && r.isDigit && t.isDigit &&
    (c2 == ':') && u.isDigit && v.isDigit
  | _ => false

/-- `(before, after)` around the first occurrence of `sep`. -/
def splitAtFirst (sep : Char) : Str → Option (Str × Str)
  | [] => none
  | c :: cs =>
    if c = sep then some ([], cs)
    else (splitAtFirst sep cs).map (fun p => (c :: p.1, p.2))

def emailLocalChar (c : Char) : Bool :=
  c.isAlphanum || c == '.' || c == '_' || c == '%' || c == '+' || c == '-'

def emailDomainChar (c : Char) : Bool :=
  c.isAlphanum || c == '.' || c == '-'

/-- `re.match(r'^[a-zA-Z0-9._%+-]+@[a-zA-Z0-9.-]+\.[a-zA-Z]{2,}$', v)`.
Since the local class excludes `@` the split is at the first `@`, and
since the TLD class excludes `.` the literal dot of the pattern is the
last dot of the domain — backtracking finds a match exactly when this
decomposition does. -/
def matchesEmail (s : Str) : Bool :=
  match splitAtFirst '@' s with
  | none => false
  | some (localPart, rest) =>
    !localPart.isEmpty && localPart.all emailLocalChar &&
    !strContainsChar rest '@' &&
    (match splitAtFirst '.' rest.reverse with
     | none => false
     | some (revTld, revDom) =>
       let dom := revDom.reverse
       let tld := revTld.reverse
       !dom.isEmpty && dom.all emailDomainChar &&
       decide (2 ≤ tld.length) && tld.all Char.isAlpha)

/-- The keys of `DataTypeRule.TYPE_PATTERNS`. -/
def TYPE_PATTERN_KEYS : List Str :=
  ["string".toList, "number".toList, "integer".toList, "boolean".toList,
   "date".toList, "datetime".toList, "email".toList]

/-- `DataTypeRule._validate_type`. -/
def validateType (data_type value : Str) : Bool :=
  if data_type ∉ TYPE_PATTERN_KEYS then true
  else if data_type = "string".toList then true
  else
    let pattern_ok :=
      if data_type = "number".toList then matchesNumber value
      else if data_type = "integer".toList then matchesInteger value
      else if data_type = "boolean".toList then matchesBoolean value
      else if data_type = "date".toList then matchesDateFormat value
      else if data_type = "datetime".toList then matchesDatetime value
      else matchesEmail value
    if !pattern_ok then false
    else if data_type = "date".toList then strptimeDateValid value
    else if data_type = "boolean".toList then strLower value ∈ BOOLEAN_LITERALS
    else true

/-- `DataTypeRule` (Python's `not field_metadata.data_type` treats both
`None` and the empty string as "no declared type"). -/
def dataTypeRule : FieldRule :=
  { rule_id := "data_type"
    should_skip := fun field_metadata value =>
      match field_metadata.data_type with
      | none => true
      | some dt =>
        if dt.isEmpty then true
        else match value with
          | none => true
          | some v => (pyStrip v).isEmpty
    validate := fun inp =>
      match inp.field_metadata.data_type with
      | none => .ok []
      | some dt =>
        if dt.isEmpty then .ok []
        else match inp.value with
          | none => .ok []
          | some v =>
            if (pyStrip v).isEmpty then .ok []
            else
              let data_type := strLower dt
              let value_str := pyStrip v
              if !validateType data_type value_str then
                .ok [ComparatorErrors.invalidDataType inp.row_index
                  inp.csv_row_index inp.entity_id inp.field_metadata.field_id
                  (pyOrStr inp.column_name
                    (inp.entity_id ++ '_' :: inp.field_metadata.field_id))
                  inp.person_id_external]
              else .ok [] }

/-- `MaxLengthRule`. -/
def maxLengthRule : FieldRule :=
  { rule_id := "max_length"
    should_skip := fun field_metadata value =>
      match field_metadata.max_length with
      | none => true
      | some _ => value.isNone
    validate := fun inp =>
      match inp.field_metadata.max_length with
      | none => .ok []
      | some max_length =>
        match inp.value with
        | none => .ok []
        | some v =>
          if max_length < v.length then
            .ok [ComparatorErrors.maxLengthExceeded inp.row_index
              inp.csv_row_index inp.entity_id inp.field_metadata.field_id
              (pyOrStr inp.column_name
                (inp.entity_id ++ '_' :: inp.field_metadata.field_id))
              inp.person_id_external]
          else .ok [] }

/-! ## Rule engine (`comparator/rule_engine.py`) -/

/-- `_execute_global_rules` / `_execute_entity_rules` (their bodies are
identical): run each rule, converting an uncaught exception into a
FATAL `RULE_EXECUTION_FAILED` error and continuing with the rest. -/
def executeScopedRules {γ : Type} (rules : List (ScopedRule γ)) (context : γ) :
    List ValidationError :=
  match rules with
  | [] => []
  | r :: rest =>
    (match r.validate context with
     | .ok rule_errors => rule_errors
     | .error _ => [ComparatorErrors.ruleExecutionFailed r.rule_id none]) ++
    executeScopedRules rest context

/-- The rule loop at the end of `_validate_field`: run every enabled
FIELD rule unless its `should_skip` fires, isolating per-rule
exceptions. -/
def runFieldRules (field_rules : List FieldRule) (inp : FieldRuleInput) :
    List ValidationError :=
  match field_rules with
  | [] => []
  | rule :: rest =>
    (if rule.should_skip inp.field_metadata inp.value then []
     else match rule.validate inp with
       | .ok rule_errors => rule_errors
       | .error _ => [ComparatorErrors.ruleExecutionFailed rule.rule_id none]) ++
    runFieldRules rest inp

/-- The tail of `entity_id.split('_', 1)`: the remainder after the first
underscore, when one exists. -/
def splitOnceTail (sep : Char) : Str → Option Str
  | [] => none
  | c :: cs => if c = sep then some cs else splitOnceTail sep cs

/-- The four country prefixes hard-coded in
`_build_field_search_patterns` and `_validate_field`. -/
def csfEntityPfxs : List Str :=
  ["MEX_".toList, "USA_".toList, "BRA_".toList, "CAN_".toList]

def hasCsfEntityPfx (s : Str) : Bool :=
  csfEntityPfxs.any (fun p => strStartsWith s p)

/-- The de-duplication loop at the end of
`_build_field_search_patterns` (drops empty and repeated patterns,
keeping first-occurrence order). -/
def dedupPatterns (patterns : List Str) : List Str :=
  go patterns []
where
  go : List Str → List Str → List Str
    | [], acc => acc
    | p :: rest, acc =>
      if !p.isEmpty ∧ p ∉ acc then go rest (acc ++ [p]) else go rest acc

/-- `RuleEngine._build_field_search_patterns`. -/
def buildFieldSearchPatterns (entity_id field_id : Str)
    (column_name : Option Str) : List Str :=
  let p1 := [entity_id ++ '_' :: field_id]
  let p2 :=
    if hasCsfEntityPfx entity_id then
      match splitOnceTail '_' entity_id with
      | some base_entity => [base_entity ++ '_' :: field_id]
      | none => []
    else []
  let p34 := match column_name with
    | some cn => [cn, cn.map (fun c => if c = '_' then '.' else c)]
    | none => []
  let p5 := match column_name with
    | some cn =>
      if strStartsWith cn "MEX_".toList || strStartsWith cn "USA_".toList ||
          strStartsWith cn "BRA_".toList then [cn]
      else []
    | none => []
  dedupPatterns (p1 ++ p2 ++ p34 ++ p5)

/-- The pattern-search loop of `_validate_field`
(`for pattern in search_patterns: if pattern in index: take; break`). -/
def firstPatternHit (index : List (Str × FieldMetadata)) :
    List Str → Option FieldMetadata
  | [] => none
  | p :: rest =>
    match alookup index p with
    | some fm => some fm
    | none => firstPatternHit index rest

/-- `RuleEngine._validate_field`. -/
def validateField (field_rules : List FieldRule) (mctx : MetadataContext)
    (entity_id : Str) (field_metadata0 : Option FieldMetadata)
    (value : Option Str) (row_index csv_row_index : Nat)
    (column_name : Option Str) (person_id_external : Option Str) :
    List ValidationError :=
  let field_id := match field_metadata0 with
    | some fm => fm.field_id
    | none =>
      match column_name with
      | some cn =>
        let parts := splitOnChar '_' cn
        if 2 ≤ parts.length then parts.getLastD [] else cn
      | none => "unknown_field".toList
  let field_metadata1 := match field_metadata0 with
    | some fm => some fm
    | none =>
      match firstPatternHit mctx.field_by_full_path
        (buildFieldSearchPatterns entity_id field_id column_name) with
      | some fm => some fm
      | none =>
        match alookup mctx.entities entity_id with
        | some entity_metadata => alookup entity_metadata.fields field_id
        | none => none
  match field_metadata1 with
  | none =>
    let field_path := entity_id ++ '_' :: field_id
    if hasCsfEntityPfx entity_id then
      [ComparatorErrors.missingMetadataForField
        ("CSF Field: ".toList ++ field_path ++
          " (not found with country prefix)".toList)]
    else
      [ComparatorErrors.missingMetadataForField field_path]
  | some field_metadata =>
    runFieldRules field_rules
      { entity_id := entity_id
        field_metadata := field_metadata
        value := value
        row_index := row_index
        csv_row_index := csv_row_index
        column_name := column_name
        person_id_external := person_id_external }

/-- The per-triple metadata pre-resolution of `_validate_row`: exact
full-path lookup, then the entity's own field map. -/
def resolveInRow (mctx : MetadataContext) (entity_id field_id : Str) :
    Option FieldMetadata :=
  match alookup mctx.field_by_full_path (entity_id ++ '_' :: field_id) with
  | some fm => some fm
  | none =>
    match alookup mctx.entities entity_id with
    | some entity_metadata => alookup entity_metadata.fields field_id
    | none => none

/-- `RuleEngine._get_column_name`. -/
def getColumnName (entities : List (Str × EntityData))
    (entity_id field_id : Str) : Option Str :=
  match alookup entities entity_id with
  | some entity_data =>
    (alookup entity_data.field_mapping field_id).map
      (fun pc => pc.original_name)
  | none => none

/-- `RuleEngine._find_person_id_external_column_index`.  The fallback on
`csv_context.headers` is dead code (`CsvContext` has no `headers`
attribute, only `columns`), so only the `parsed_columns` scan remains. -/
def findPersonIdExternalColumnIndex (parsed_columns : List ParsedColumn) :
    Option Nat :=
  go 0 parsed_columns
where
  go (idx : Nat) : List ParsedColumn → Option Nat
    | [] => none
    | pc :: rest =>
      if pc.element_id = "personInfo".toList ∧
          pc.field_id = "person-id-external".toList then some idx
      else go (idx + 1) rest

/-- The per-`(entity, field, value)` unit of `_validate_row`: the
pre-resolution, the column-name lookup, and the `_validate_field`
call. -/
def validateTriple (field_rules : List FieldRule) (mctx : MetadataContext)
    (entities : List (Str × EntityData)) (entity_id field_id : Str)
    (value : Str) (row_index csv_row_index : Nat)
    (person_id_external : Option Str) : List ValidationError :=
  validateField field_rules mctx entity_id
    (resolveInRow mctx entity_id field_id) (some value)
    row_index csv_row_index (getColumnName entities entity_id field_id)
    person_id_external

/-- `RuleEngine._validate_row`. -/
def validateRow (field_rules : List FieldRule) (mctx : MetadataContext)
    (parsed_columns : List ParsedColumn) (entities : List (Str × EntityData))
    (row : TransformedRow) : List ValidationError :=
  let person_id_external :=
    match findPersonIdExternalColumnIndex parsed_columns with
    | some col_index =>
      if col_index < row.raw_values.length then
        let v := pyStrip (row.raw_values.getD col_index [])
        if v.isEmpty then none else some v
      else none
    | none => none
  (row.data_by_entity.map (fun ep =>
    (ep.2.map (fun fp =>
      validateTriple field_rules mctx entities ep.1 fp.1 fp.2
        row.original_row_index row.csv_row_index
        person_id_external)).flatten)).flatten

/-- `RuleEngine.validate_batch`.  The outer `try/except` around the
three phases is unreachable in the model: every per-rule exception is
already converted inside the loops, so the batch always completes. -/
def validateBatch {γ : Type} (global_rules entity_rules : List (ScopedRule γ))
    (field_rules : List FieldRule) (context : γ) (mctx : MetadataContext)
    (parsed_columns : List ParsedColumn) (entities : List (Str × EntityData))
    (batch_rows : List TransformedRow) (batch_index : Nat) :
    BatchValidationResult :=
  { batch_index := batch_index
    processed_rows := batch_rows.length
    errors :=
      executeScopedRules global_rules context ++
      executeScopedRules entity_rules context ++
      (batch_rows.map
        (validateRow field_rules mctx parsed_columns entities)).flatten }

/-- The metadata-resolution order the engine actually implements for a
row triple, written as one explicit chain (the statement form of the
amended claim C8): exact `entity_field` lookup, then the entity's own
field map under the row's field id; if both fail, the field id is
re-derived from the column name's last segment, and the pattern list
(`entity_field`, country-prefix-stripped, literal column name, column
name with `.` separators) and then the entity field map are consulted
under the re-derived field id. -/
def orderedResolve (mctx : MetadataContext) (entity_id field_id : Str)
    (column_name : Option Str) : Option FieldMetadata :=
  match resolveInRow mctx entity_id field_id with
  | some fm => some fm
  | none =>
    let field_id' := match column_name with
      | some cn =>
        let parts := splitOnChar '_' cn
        if 2 ≤ parts.length then parts.getLastD [] else cn
      | none => "unknown_field".toList
    match firstPatternHit mctx.field_by_full_path
      (buildFieldSearchPatterns entity_id field_id' column_name) with
    | some fm => some fm
    | none =>
      match alookup mctx.entities entity_id with
      | some entity_metadata => alookup entity_metadata.fields field_id'
      | none => none

/-- The resolution order claim C8 states, modelled from the claim's own
words for comparison with the engine: exact `entity_field` lookup, then
a country-prefix-stripped retry, then a literal column-name lookup,
then a lookup within the entity's own field map. -/
def claimedResolveOrder (mctx : MetadataContext) (entity_id field_id : Str)
    (column_name : Option Str) : Option FieldMetadata :=
  match alookup mctx.field_by_full_path (entity_id ++ '_' :: field_id) with
  | some fm => some fm
  | none =>
    match (if hasCsfEntityPfx entity_id then
        (splitOnceTail '_' entity_id).bind (fun base_entity =>
          alookup mctx.field_by_full_path (base_entity ++ '_' :: field_id))
      else none) with
    | some fm => some fm
    | none =>
      match column_name.bind
        (fun cn => alookup mctx.field_by_full_path cn) with
      | some fm => some fm
      | none =>
        match alookup mctx.entities entity_id with
        | some entity_metadata => alookup entity_metadata.fields field_id
        | none => none

/-- Counterexample data for claim C8: the entity's own field map holds
metadata with `max_length = 5` for field `f` of entity `e`, while the
full-path index holds, under the literal column name `COL`, metadata
with `max_length = 7`; the exact path `e_f` is absent. -/
def cexM1 : FieldMetadata :=
  { element_id := "e".toList, field_id := "f".toList
    full_path := "e_f".toList, max_length := some 5 }

def cexM2 : FieldMetadata :=
  { element_id := "e".toList, field_id := "f".toList
    full_path := "COL".toList, max_length := some 7 }

def cexMctx : MetadataContext :=
  { entities := [("e".toList,
      { entity_id := "e".toList, fields := [("f".toList, cexM1)] })]
    field_by_full_path := [("COL".toList, cexM2)] }

/-- Transform-side entities for the C8 counterexample: column `COL`
carries entity `e`, field `f`. -/
def cexEntities : List (Str × EntityData) :=
  [("e".toList,
    { entity_id := "e".toList
      field_mapping := [("f".toList,
        mkParsedColumn "COL".toList "e".toList "f".toList false none)] })]

/-! ## Reporting (`reporting/models.py`, `reporting/aggregator.py`) -/

inductive ReportLevel
  | ERROR
  | WARNING
  | INFO
deriving DecidableEq, Repr

/-- `ReportEntry` (`message`, `expected`, `actual` and the `details`
dict are elided). -/
structure ReportEntry where
  identificador : Option Str
  field_id : Option Str
  column_name : Option Str
  error_code : String
  level : ReportLevel
  metadata_path : Option Str := none
deriving DecidableEq, Repr

/-- The severity→level mapping of `_convert_errors_to_entries`
(substring tests on `str(severity)`: `FATAL`/`ERROR` ⇒ ERROR level,
`WARNING` ⇒ WARNING, missing severity ⇒ INFO). -/
def mapSeverityToLevel (severity : Option ValidationSeverity) : ReportLevel :=
  match severity with
  | none => ReportLevel.INFO
  | some ValidationSeverity.FATAL => ReportLevel.ERROR
  | some ValidationSeverity.ERROR => ReportLevel.ERROR
  | some ValidationSeverity.WARNING => ReportLevel.WARNING

/-- `ReportAggregator._convert_errors_to_entries`. -/
def convertErrorsToEntries (validation_errors : List ValidationError) :
    List ReportEntry :=
  validation_errors.map (fun error =>
    { identificador := error.person_id_external
      field_id := error.field_id
      column_name := error.column_name
      error_code := error.code
      level := mapSeverityToLevel (some error.severity)
      metadata_path := error.metadata_path })

/-- `ValidationMetrics` (`validation_time` elided). -/
structure ValidationMetrics where
  total_rows : Nat := 0
  total_batches : Nat := 0
  total_errors : Nat := 0
  total_warnings : Nat := 0
  error_counts : List (String × Nat) := []
  identificador_counts : List (String × Nat) := []
  severity_counts : List (String × Nat) := []
deriving DecidableEq, Repr

/-- `severity.value`. -/
def severityValue : ValidationSeverity → String
  | ValidationSeverity.FATAL => "FATAL"
  | ValidationSeverity.ERROR => "ERROR"
  | ValidationSeverity.WARNING => "WARNING"

/-- The per-error body of the counting loop in `_calculate_metrics`.
Note the per-identifier counter bumps the CONSTANT key
`"personInfo_person-id-external"`, not the error's business-identifier
value. -/
def metricsStep (m : ValidationMetrics) (error : ValidationError) :
    ValidationMetrics :=
  let severity_value := severityValue error.severity
  let m1 := { m with severity_counts := (aset m.severity_counts severity_value
      ((alookup m.severity_counts severity_value).getD 0 + 1)) }
  let m2 :=
    if severity_value = "ERROR" ∨ severity_value = "FATAL" then
      { m1 with total_errors := m1.total_errors + 1 }
    else if severity_value = "WARNING" then
      { m1 with total_warnings := m1.total_warnings + 1 }
    else m1
  let m3 := { m2 with error_counts := (aset m2.error_counts error.code
      ((alookup m2.error_counts error.code).getD 0 + 1)) }
  { m3 with identificador_counts := (aset m3.identificador_counts
      "personInfo_person-id-external"
      ((alookup m3.identificador_counts
        "personInfo_person-id-external").getD 0 + 1)) }

/-- The per-batch body of the first loop in `_calculate_metrics`. -/
def metricsBatchStep (m : ValidationMetrics) (br : BatchValidationResult) :
    ValidationMetrics :=
  { m with total_batches := m.total_batches + 1
           total_rows := m.total_rows + br.processed_rows }

/-- `ReportAggregator._calculate_metrics`. -/
def calculateMetrics (batch_results : List BatchValidationResult) :
    ValidationMetrics :=
  let base := batch_results.foldl metricsBatchStep {}
  ((batch_results.map (fun br => br.errors)).flatten).foldl metricsStep base

/-! ## Metadata adapter (`comparator/context_adapter.py`,
`_extract_from_xml_document`) -/

/-- A node of the upstream schema tree (the pickled `XMLDocument`): tag,
technical id, node type (the `node_type` enum's string value), attribute
map, children. -/
inductive Node
  | mk (tag : Str) (technical_id : Str) (node_type : String)
      (attributes : List (String × Str)) (children : List Node)

def Node.tag : Node → Str
  | .mk t _ _ _ _ => t

def Node.technical_id : Node → Str
  | .mk _ i _ _ _ => i

def Node.node_type : Node → String
  | .mk _ _ nt _ _ => nt

def Node.attributes : Node → List (String × Str)
  | .mk _ _ _ a _ => a

/-- Python truthiness of an optional string (`None` and `""` falsy). -/
def pyTruthyOpt (a : Option Str) : Bool :=
  match a with
  | some v => !v.isEmpty
  | none => false

/-- `int(str(s).strip())` on a digit run (schema `max-length` values;
sign handling elided). -/
def parseNatDigits (s : Str) : Option Nat :=
  if digitsNonempty s then
    some (s.foldl (fun acc c => 10 * acc + digitVal c) 0)
  else none

/-- `MetadataAdapter._parse_max_length`. -/
def parseMaxLength (max_length_str : Option Str) : Option Nat :=
  match max_length_str with
  | none => none
  | some s => if s.isEmpty then none else parseNatDigits (pyStrip s)

/-- `attributes.get('required', 'false').lower() == 'true'`. -/
def attrRequired (a : List (String × Str)) : Bool :=
  strLower ((alookup a "required").getD "false".toList) = "true".toList

/-- The internal (un-prefixed) `FieldMetadata` built for a field of a
country-scoped entity. -/
def csfInternalMeta (parent_element C field_id : Str)
    (a : List (String × Str)) : FieldMetadata :=
  { element_id := parent_element
    field_id := field_id
    full_path := parent_element ++ '_' :: field_id
    is_required := attrRequired a
    data_type := alookup a "type"
    max_length := parseMaxLength (alookup a "max-length")
    pattern := alookup a "pattern"
    is_country_specific := true
    country_code := some C }

/-- The CSV-facing (country-prefixed) `FieldMetadata` for the same
field: same constraints, prefixed element id and full path. -/
def csfCsvMeta (parent_element C field_id : Str)
    (a : List (String × Str)) : FieldMetadata :=
  { csfInternalMeta parent_element C field_id a with
    element_id := C ++ '_' :: parent_element
    full_path := C ++ '_' :: parent_element ++ '_' :: field_id }

/-- The prefixes the non-CSF branch checks on `parent_element`
(`MEX_`, `USA_`, `BRA_`, `NADRO_`). -/
def nonCsfParentMarks : List Str :=
  ["MEX_".toList, "USA_".toList, "BRA_".toList, "NADRO_".toList]

/-- The `FieldMetadata` built in the non-CSF branch. -/
def nonCsfMeta (parent_element field_id : Str)
    (a : List (String × Str)) : FieldMetadata :=
  { element_id := parent_element
    field_id := field_id
    full_path := parent_element ++ '_' :: field_id
    is_required := attrRequired a
    data_type := alookup a "type"
    max_length := parseMaxLength (alookup a "max-length")
    pattern := alookup a "pattern"
    is_country_specific := nonCsfParentMarks.any
      (fun p => strStartsWith parent_element p)
    country_code :=
      if strContainsChar parent_element '_' then
        some ((splitOnChar '_' parent_element).getD 0 [])
      else none }

/-- `original_entity.fields[field_id] = md` plus the conditional
`required_fields.add(field_id)`. -/
def entityAddField (em : EntityMetadata) (field_id : Str)
    (md : FieldMetadata) (required : Bool) : EntityMetadata :=
  { em with fields := aset em.fields field_id md
            required_fields :=
              if required then setAdd em.required_fields field_id
              else em.required_fields }

/-- The `hris-element` branch of `process_node`. -/
def processElementNode (node : Node) (parent_element : Option Str)
    (ctx : MetadataContext) : Option Str × MetadataContext :=
  let element_id :=
    if node.technical_id ≠ [] then node.technical_id
    else (alookup node.attributes "id").getD []
  if element_id ≠ [] then
    let data_country := alookup node.attributes "data-country"
    let data_origin := (alookup node.attributes "data-origin").getD []
    let is_cs0 : Bool := data_origin = "csf".toList
    let country_code := match data_country with
      | some v =>
        if v = [] ∨ v = "UNKNOWN".toList then none else some v
      | none => none
    let is_country_specific : Bool :=
      if is_cs0 = true ∧ country_code = none then false else is_cs0
    let ctx' :=
      if alookup ctx.entities element_id = none then
        { ctx with entities := (aset ctx.entities element_id
            { entity_id := element_id
              is_country_specific := is_country_specific
              country_code := country_code }) }
      else ctx
    (some element_id, ctx')
  else (parent_element, ctx)

/-- The `hris-field` branch of `process_node` (this branch returns
without visiting the node's children). -/
def processField (node : Node) (parent_element : Option Str)
    (ctx : MetadataContext) : Option Str × MetadataContext :=
  match parent_element with
  | none => (parent_element, ctx)
  | some parent =>
    let field_id :=
      if node.technical_id ≠ [] then node.technical_id
      else (alookup node.attributes "id").getD []
    if field_id = [] then (parent_element, ctx)
    else
      match alookup ctx.entities parent with
      | some entity_meta =>
        if entity_meta.is_country_specific &&
            pyTruthyOpt entity_meta.country_code then
          match entity_meta.country_code with
          | some C =>
            let required := attrRequired node.attributes
            let internal_full_path := parent ++ '_' :: field_id
            let csv_full_path := C ++ '_' :: parent ++ '_' :: field_id
            let internal_field_metadata :=
              csfInternalMeta parent C field_id node.attributes
            let csv_field_metadata :=
              csfCsvMeta parent C field_id node.attributes
            let ctx1 := { ctx with field_by_full_path :=
              (aset (aset ctx.field_by_full_path internal_full_path
                internal_field_metadata) csv_full_path csv_field_metadata) }
            let country_element_id := C ++ '_' :: parent
            let ctx2 :=
              if alookup ctx1.entities country_element_id = none then
                { ctx1 with entities := (aset ctx1.entities country_element_id
                    { entity_id := country_element_id
                      is_country_specific := true
                      country_code := some C }) }
              else ctx1
            let ctx3 := { ctx2 with entities := (amodify ctx2.entities parent
              (fun em => entityAddField em field_id
                internal_field_metadata required)) }
            let ctx4 := { ctx3 with entities :=
              (amodify ctx3.entities country_element_id
                (fun em => entityAddField em field_id
                  csv_field_metadata required)) }
            (parent_element, ctx4)
          | none => (parent_element, ctx)  -- unreachable: country is truthy
        else
          processFieldNonCsf parent field_id node ctx
      | none =>
        processFieldNonCsf parent field_id node ctx
where
  processFieldNonCsf (parent field_id : Str) (node : Node)
      (ctx : MetadataContext) : Option Str × MetadataContext :=
    let full_path := parent ++ '_' :: field_id
    let required := attrRequired node.attributes
    let field_metadata := nonCsfMeta parent field_id node.attributes
    let ctx1 := { ctx with field_by_full_path :=
      (aset ctx.field_by_full_path full_path field_metadata) }
    let ctx2 :=
      if (alookup ctx1.entities parent).isSome then
        { ctx1 with entities := (amodify ctx1.entities parent
          (fun em => entityAddField em field_id field_metadata required)) }
      else ctx1
    (some parent, ctx2)

mutual

/-- `_extract_from_xml_document.process_node`: the depth-first walk. -/
def processNode : Node → Option Str → MetadataContext →
    Option Str × MetadataContext
  | node@(.mk tag technical_id node_type _ children), parent_element, ctx =>
    if strContainsSub "hris-element".toList (strLower tag) then
      let r := processElementNode node parent_element ctx
      processChildren children r.1 r.2
    else if strContainsSub "hris-field".toList (strLower tag) then
      processField node parent_element ctx
    else if node_type = "element" ∧ technical_id ≠ [] then
      let element_id := technical_id
      let ctx' :=
        if alookup ctx.entities element_id = none ∧
            (strStartsWith element_id "workPermitInfo_".toList ∨
             strStartsWith element_id "homeAddress_".toList) then
          { ctx with entities := (aset ctx.entities element_id
              { entity_id := element_id }) }
        else ctx
      processChildren children (some element_id) ctx'
    else
      processChildren children parent_element ctx

/-- The `for child in children` loop, threading the parent element. -/
def processChildren : List Node → Option Str → MetadataContext →
    Option Str × MetadataContext
  | [], parent_element, ctx => (parent_element, ctx)
  | c :: rest, parent_element, ctx =>
    let r := processNode c parent_element ctx
    processChildren rest r.1 r.2

end

/-- A field node of the schema tree, as the claim C2 statement builds
them: an `hris-field` leaf with a technical id and attributes. -/
def mkFieldNode (f : Str × List (String × Str)) : Node :=
  Node.mk "hris-field".toList f.1 "field" f.2 []

/-- The walk started on one `hris-element` node whose children are field
leaves, from an empty context (the claim C2 scenario). -/
def csfElementRun (eid : Str) (attrs : List (String × Str))
    (fields : List (Str × List (String × Str))) : MetadataContext :=
  (processNode (Node.mk "hris-element".toList eid "element" attrs
    (fields.map mkFieldNode)) none {}).2

/-! # Theorems -/

/-! ## Library lemmas for the embedding types -/

theorem splitOnChar_ne_nil (sep : Char) (l : Str) : splitOnChar sep l ≠ [] := by
  induction l with
  | nil => simp [splitOnChar]
  | cons c cs ih =>
    simp only [splitOnChar]
    cases h : splitOnChar sep cs with
    | nil => exact absurd h ih
    | cons t ts =>
      by_cases hc : c = sep <;> simp [hc]

theorem joinWith_cons (sep : Char) (s : Str) {rest : List Str} (h : rest ≠ []) :
    joinWith sep (s :: rest) = s ++ sep :: joinWith sep rest := by
  cases rest with
  | nil => exact absurd rfl h
  | cons s' rest' => rfl

/-- Splitting then joining recovers the original string. -/
theorem joinWith_splitOnChar (sep : Char) (l : Str) :
    joinWith sep (splitOnChar sep l) = l := by
  induction l with
  | nil => rfl
  | cons c cs ih =>
    cases h : splitOnChar sep cs with
    | nil => exact absurd h (splitOnChar_ne_nil sep cs)
    | cons t ts =>
      rw [h] at ih
      simp only [splitOnChar, h]
      by_cases hc : c = sep
      · rw [if_pos hc, joinWith_cons sep [] (List.cons_ne_nil t ts), ih,
          List.nil_append, hc]
      · rw [if_neg hc]
        cases ts with
        | nil =>
          simp only [joinWith] at ih ⊢
          rw [ih]
        | cons t2 ts2 =>
          rw [joinWith_cons sep (c :: t) (List.cons_ne_nil t2 ts2)]
          rw [joinWith_cons sep t (List.cons_ne_nil t2 ts2)] at ih
          rw [List.cons_append, ih]

theorem splitOnChar_of_not_contains {l : Str} {c : Char}
    (h : strContainsChar l c = false) : splitOnChar c l = [l] := by
  induction l with
  | nil => rfl
  | cons a as ih =>
    simp only [strContainsChar, List.any_cons, Bool.or_eq_false_iff,
      beq_eq_false_iff_ne, ne_eq] at h
    have has : strContainsChar as c = false := by
      simpa [strContainsChar] using h.2
    simp only [splitOnChar, ih has]
    simp [h.1]

theorem splitOnChar_length_ge_two {l : Str} (h : strContainsChar l '_' = true) :
    2 ≤ (splitOnChar '_' l).length := by
  induction l with
  | nil => simp [strContainsChar] at h
  | cons c cs ih =>
    simp only [splitOnChar]
    cases hs : splitOnChar '_' cs with
    | nil => exact absurd hs (splitOnChar_ne_nil _ cs)
    | cons t ts =>
      by_cases hc : c = '_'
      · simp [hc]
      · simp only [if_neg hc, List.length_cons]
        have hcs : strContainsChar cs '_' = true := by
          simp only [strContainsChar, List.any_cons, Bool.or_eq_true] at h
          rcases h with h | h
          · exact absurd (by simpa using h) hc
          · exact h
        have := ih hcs
        rw [hs] at this
        simpa using this

theorem alookup_aset_self {κ α : Type} [DecidableEq κ] (l : List (κ × α)) (k : κ) (v : α) :
    alookup (aset l k v) k = some v := by
  induction l with
  | nil => simp [aset, alookup]
  | cons p rest ih =>
    obtain ⟨k', v'⟩ := p
    by_cases h : k' = k <;> simp [aset, alookup, h, ih]

theorem alookup_aset_ne {κ α : Type} [DecidableEq κ] (l : List (κ × α)) {k k' : κ} (v : α)
    (h : k' ≠ k) : alookup (aset l k v) k' = alookup l k' := by
  have h' : ¬(k = k') := fun hh => h hh.symm
  induction l with
  | nil => simp [aset, alookup, h']
  | cons p rest ih =>
    obtain ⟨k0, v0⟩ := p
    by_cases h0 : k0 = k
    · have h0' : ¬(k0 = k') := by rw [h0]; exact h'
      simp [aset, alookup, h0, h', h0']
    · by_cases h1 : k0 = k' <;> simp [aset, alookup, h0, h1, ih, h]

theorem length_aset_of_not_mem {κ α : Type} [DecidableEq κ] (l : List (κ × α)) (k : κ) (v : α)
    (h : alookup l k = none) : (aset l k v).length = l.length + 1 := by
  induction l with
  | nil => simp [aset]
  | cons p rest ih =>
    obtain ⟨k0, v0⟩ := p
    simp only [alookup] at h
    by_cases h0 : k0 = k
    · simp [h0] at h
    · simp only [if_neg h0] at h
      simp [aset, h0, ih h]

theorem alookup_isSome_aset {κ α : Type} [DecidableEq κ] (l : List (κ × α)) (k k' : κ) (v : α)
    (h : (alookup (aset l k v) k').isSome) :
    k' = k ∨ (alookup l k').isSome := by
  by_cases hk : k' = k
  · exact Or.inl hk
  · right
    rwa [alookup_aset_ne l v hk] at h

/-! ## Column parser lemmas (claims C3, C10) -/

theorem parseFinish_ok {cn e f : Str} {b : Bool} {cc : Option Str} {pc : ParsedColumn}
    (h : parseColumn.parseFinish cn e f b cc = (some pc, none)) :
    pc = mkParsedColumn cn e f b cc := by
  unfold parseColumn.parseFinish at h
  by_cases he : e.isEmpty
  · simp [he] at h
  · by_cases hf : f.isEmpty
    · simp [he, hf] at h
    · simp only [he, hf, Bool.false_eq_true, if_false, Prod.mk.injEq,
        Option.some.injEq] at h
      exact h.1.symm

/-- Claim C3: `parse_column("MEX_homeAddress_fiscal_street")` resolves to
entity `homeAddress_fiscal`, field `street`, country `MEX`, scoped;
`parse_column("personInfo_country-of-birth")` resolves to entity
`personInfo`, field `country-of-birth`, unscoped; and in general every
successfully parsed column whose first segment passes the country-code
heuristic with at least 3 segments yields an `entity_id` that does not
carry the country prefix: the stripped column splits back as
`COUNTRY_entity_field` with the country segment outside the entity id. -/
theorem claim_C3_parse_column (col : Str) (pc : ParsedColumn)
    (hok : parseColumn col = (some pc, none))
    (hlen : 3 ≤ (splitOnChar '_' (pyStrip col)).length)
    (hcc : looksLikeCountryCode ((splitOnChar '_' (pyStrip col)).getD 0 []) = true) :
    parseColumn "MEX_homeAddress_fiscal_street".toList =
      (some (mkParsedColumn "MEX_homeAddress_fiscal_street".toList
        "homeAddress_fiscal".toList "street".toList true (some "MEX".toList)), none) ∧
    parseColumn "personInfo_country-of-birth".toList =
      (some (mkParsedColumn "personInfo_country-of-birth".toList
        "personInfo".toList "country-of-birth".toList false none), none) ∧
    pc.is_country_specific = true ∧
    pc.country_code = some ((splitOnChar '_' (pyStrip col)).getD 0 []) ∧
    pyStrip col =
      ((splitOnChar '_' (pyStrip col)).getD 0 []) ++
        '_' :: (pc.element_id ++ '_' :: pc.field_id) := by
  refine ⟨by decide, by decide, ?_⟩
  have hjoin := joinWith_splitOnChar '_' (pyStrip col)
  have h0 : col.isEmpty = false := by
    cases hc0 : col.isEmpty
    · rfl
    · rw [List.isEmpty_iff] at hc0
      subst hc0
      simp [pyStrip, splitOnChar] at hlen
  have hcont : strContainsChar (pyStrip col) '_' = true := by
    cases hcb : strContainsChar (pyStrip col) '_'
    · rw [splitOnChar_of_not_contains hcb] at hlen
      simp at hlen
    · rfl
  rw [parseColumn] at hok
  simp only [h0, Bool.false_eq_true, if_false, hcont, Bool.not_true] at hok
  rcases hps : splitOnChar '_' (pyStrip col) with _ | ⟨p0, _ | ⟨p1, _ | ⟨p2, rest⟩⟩⟩
  · exact absurd hps (splitOnChar_ne_nil _ _)
  · rw [hps] at hlen; simp at hlen
  · rw [hps] at hlen; simp at hlen
  rw [hps] at hok
  rw [hps] at hcc
  rw [hps] at hjoin
  simp only [List.getD, List.get?, Option.getD_some] at hok hcc ⊢
  have hbranch : 3 ≤ (p0 :: p1 :: p2 :: rest).length ∧
      looksLikeCountryCode p0 = true := by
    constructor
    · simp
    · simpa using hcc
  rw [if_pos hbranch] at hok
  cases rest with
  | nil =>
    have h4 : ¬(4 ≤ ([p0, p1, p2] : List Str).length) := by simp
    rw [if_neg h4, if_pos (by simp : ([p0, p1, p2] : List Str).length = 3)] at hok
    have hpc := parseFinish_ok hok
    subst hpc
    refine ⟨rfl, rfl, ?_⟩
    rw [← hjoin]
    simp [joinWith, mkParsedColumn]
  | cons r rs =>
    have h4 : 4 ≤ (p0 :: p1 :: p2 :: r :: rs).length := by simp
    rw [if_pos h4] at hok
    simp only [List.getD, List.get?, Option.getD_some, List.drop] at hok
    by_cases hcomp : (p1 ++ '_' :: p2) ∈ COMPOUND_ELEMENTS
    · rw [if_pos hcomp] at hok
      have hpc := parseFinish_ok hok
      subst hpc
      refine ⟨rfl, rfl, ?_⟩
      rw [← hjoin]
      simp [joinWith, mkParsedColumn, List.append_assoc]
    · rw [if_neg hcomp] at hok
      have hpc := parseFinish_ok hok
      subst hpc
      refine ⟨rfl, rfl, ?_⟩
      rw [← hjoin]
      simp [joinWith, mkParsedColumn]

/-- Witness for C3 at the concrete column `MEX_homeAddress_fiscal_street`. -/
theorem claim_C3_witness :
    pyStrip "MEX_homeAddress_fiscal_street".toList =
      ((splitOnChar '_' (pyStrip "MEX_homeAddress_fiscal_street".toList)).getD 0 []) ++
        '_' :: ((mkParsedColumn "MEX_homeAddress_fiscal_street".toList
          "homeAddress_fiscal".toList "street".toList true
          (some "MEX".toList)).element_id ++
            '_' :: (mkParsedColumn "MEX_homeAddress_fiscal_street".toList
              "homeAddress_fiscal".toList "street".toList true
              (some "MEX".toList)).field_id) :=
  (claim_C3_parse_column "MEX_homeAddress_fiscal_street".toList
    (mkParsedColumn "MEX_homeAddress_fiscal_street".toList
      "homeAddress_fiscal".toList "street".toList true (some "MEX".toList))
    (by decide) (by decide) (by decide)).2.2.2.2

/-- The default `ParsedColumn` used only as the `List.getD` fallback in
statements about `parse_all_columns` (never reachable under the
in-bounds hypotheses). -/
def defaultParsedColumn : ParsedColumn := mkParsedColumn [] [] [] false none

theorem parseAllColumns_go_length (names : List Str) :
    ∀ k : Nat, (parseAllColumns.go k names).1.length = names.length := by
  induction names with
  | nil => intro k; rfl
  | cons n rest ih =>
    intro k
    rcases hp : parseColumn n with ⟨pc?, err?⟩
    cases err? with
    | some e => simp [parseAllColumns.go, hp, ih]
    | none =>
      cases pc? with
      | some pc => simp [parseAllColumns.go, hp, ih]
      | none => simp [parseAllColumns.go, hp, ih]

theorem parseAllColumns_go_get (names : List Str) :
    ∀ (k i : Nat), i < names.length →
    (∀ e, (parseColumn (names.getD i [])).2 = some e →
      (parseAllColumns.go k names).1.getD i defaultParsedColumn =
        mkParsedColumn (names.getD i []) ("ERROR_".toList ++ natToStr (k + i))
          (names.getD i []) false none ∧
      e ∈ (parseAllColumns.go k names).2) ∧
    (∀ pc, parseColumn (names.getD i []) = (some pc, none) →
      (parseAllColumns.go k names).1.getD i defaultParsedColumn = pc) := by
  induction names with
  | nil => intro k i hi; simp at hi
  | cons n rest ih =>
    intro k i hi
    cases i with
    | zero =>
      constructor
      · intro e he
        have he' : (parseColumn n).2 = some e := by simpa using he
        rcases hp : parseColumn n with ⟨pc?, err?⟩
        rw [hp] at he'
        cases err? with
        | none => exact absurd he' (by simp)
        | some e0 =>
          have he0 : e0 = e := by simpa using he'
          subst he0
          cases pc? <;> simp [parseAllColumns.go, hp]
      · intro pc hpc
        have hpc' : parseColumn n = (some pc, none) := by simpa using hpc
        simp [parseAllColumns.go, hpc']
    | succ j =>
      have hj : j < rest.length := by simpa using hi
      have ihj := ih (k + 1) j hj
      have hk : k + 1 + j = k + (j + 1) := by omega
      constructor
      · intro e he
        have he' : (parseColumn (rest.getD j [])).2 = some e := by simpa using he
        obtain ⟨h1, h2⟩ := ihj.1 e he'
        rw [hk] at h1
        rcases hp : parseColumn n with ⟨pc?, err?⟩
        cases err? with
        | some e0 =>
          cases pc? <;>
            (simp only [parseAllColumns.go, hp, List.getD_cons_succ,
              List.mem_cons]; exact ⟨h1, Or.inr h2⟩)
        | none =>
          cases pc? with
          | some pc =>
            simp only [parseAllColumns.go, hp, List.getD_cons_succ]
            exact ⟨h1, h2⟩
          | none =>
            simp only [parseAllColumns.go, hp, List.getD_cons_succ,
              List.mem_cons]
            exact ⟨h1, Or.inr h2⟩
      · intro pc hpc
        have hpc' : parseColumn (rest.getD j []) = (some pc, none) := by
          simpa using hpc
        have h1 := ihj.2 pc hpc'
        rcases hp : parseColumn n with ⟨pc?, err?⟩
        cases err? with
        | some e0 =>
          cases pc? <;>
            (simp only [parseAllColumns.go, hp, List.getD_cons_succ]; exact h1)
        | none =>
          cases pc? with
          | some pc0 =>
            simp only [parseAllColumns.go, hp, List.getD_cons_succ]
            exact h1
          | none =>
            simp only [parseAllColumns.go, hp, List.getD_cons_succ]
            exact h1

/-- Claim C10: `parse_all_columns` is total and alignment-preserving — the
result has exactly the input's length, in input order; a name that fails
to parse occupies its position with the placeholder
(`element_id = ERROR_<index>`, `field_id` = the original name, not
country-specific) and its parsing error is collected, while a name that
parses occupies its position with its `ParsedColumn`. -/
theorem claim_C10_parse_all_columns (names : List Str) :
    (parseAllColumns names).1.length = names.length ∧
    (∀ i, i < names.length →
      (∀ e, (parseColumn (names.getD i [])).2 = some e →
        (parseAllColumns names).1.getD i defaultParsedColumn =
          mkParsedColumn (names.getD i []) ("ERROR_".toList ++ natToStr i)
            (names.getD i []) false none ∧
        e ∈ (parseAllColumns names).2) ∧
      (∀ pc, parseColumn (names.getD i []) = (some pc, none) →
        (parseAllColumns names).1.getD i defaultParsedColumn = pc)) := by
  refine ⟨parseAllColumns_go_length names 0, ?_⟩
  intro i hi
  have h := parseAllColumns_go_get names 0 i hi
  simpa [parseAllColumns] using h

/-- Witness for C10 on a concrete two-column header whose second column
(`badcolumn`, no underscore) fails to parse. -/
theorem claim_C10_witness :
    (parseAllColumns ["personInfo_firstName".toList, "badcolumn".toList]).1.length = 2 ∧
    (parseAllColumns ["personInfo_firstName".toList, "badcolumn".toList]).1.getD 1
        defaultParsedColumn =
      mkParsedColumn "badcolumn".toList ("ERROR_".toList ++ natToStr 1)
        "badcolumn".toList false none := by
  have h := claim_C10_parse_all_columns
    ["personInfo_firstName".toList, "badcolumn".toList]
  refine ⟨h.1, ?_⟩
  exact ((h.2 1 (by decide)).1
    (TransformerErrors.invalidColumnComposition "badcolumn".toList) (by decide)).1

/-! ## Structure detector lemmas (claim C5) -/

theorem validateHeaderRowAux_none (row_index : Nat) :
    ∀ (cells : List Str) (i : Nat) (seen : List Str),
    (∀ c ∈ cells, (pyStrip c).isEmpty = false ∧
      strContainsChar (pyStrip c) '_' = true) →
    (cells.map pyStrip).Nodup →
    (∀ c ∈ cells, pyStrip c ∉ seen) →
    validateHeaderRowAux row_index cells i seen = none := by
  intro cells
  induction cells with
  | nil => intro i seen _ _ _; rfl
  | cons c rest ih =>
    intro i seen hcells hnodup hseen
    obtain ⟨hc_ne, hc_us⟩ := hcells c (List.mem_cons_self c rest)
    have hc_notseen : pyStrip c ∉ seen := hseen c (List.mem_cons_self c rest)
    simp only [validateHeaderRowAux, hc_ne, Bool.false_eq_true, if_false,
      hc_us, Bool.not_true]
    rw [if_neg hc_notseen]
    apply ih (i + 1) (pyStrip c :: seen)
    · intro c' hc'
      exact hcells c' (List.mem_cons_of_mem c hc')
    · exact (List.nodup_cons.mp hnodup).2
    · intro c' hc'
      simp only [List.mem_cons]
      push_neg
      constructor
      · intro heq
        exact (List.nodup_cons.mp hnodup).1 (heq ▸ List.mem_map_of_mem pyStrip hc')
      · exact hseen c' (List.mem_cons_of_mem c hc')

theorem validateHeaderRow_none {header_row : List Str}
    (hne : header_row ≠ [])
    (hcells : ∀ c ∈ header_row, (pyStrip c).isEmpty = false ∧
      strContainsChar (pyStrip c) '_' = true)
    (hnodup : (header_row.map pyStrip).Nodup) :
    validateHeaderRow header_row = none := by
  rw [validateHeaderRow, if_neg (by simpa [List.isEmpty_iff] using hne)]
  exact validateHeaderRowAux_none 0 header_row 0 [] hcells hnodup
    (by intro c _; exact List.not_mem_nil (pyStrip c))

/-- Claim C5: for a file whose first row is a valid header (all cells
non-empty, unique, underscore-containing after stripping), the detector
succeeds with `data_start_index = 2` and no fatal error, regardless of
row 2's content; a column-count mismatch on row 2 is appended as a
non-fatal error, and a missing third row appends the non-fatal
`NO_DATA_ROWS` warning. -/
theorem claim_C5_detect_structure (allRows : List (List Str))
    (hne : allRows ≠ [])
    (hhne : allRows.getD 0 [] ≠ [])
    (hcells : ∀ c ∈ allRows.getD 0 [],
      (pyStrip c).isEmpty = false ∧ strContainsChar (pyStrip c) '_' = true)
    (hnodup : ((allRows.getD 0 []).map pyStrip).Nodup) :
    ∃ ctx : CsvContext,
      detectStructure allRows = (some ctx, none) ∧
      ctx.data_start_index = 2 ∧
      ctx.columns = allRows.getD 0 [] ∧
      (∀ e ∈ ctx.errors, e.severity ≠ ErrorSeverity.FATAL) ∧
      (1 < allRows.length →
        (allRows.getD 1 []).length ≠ (allRows.getD 0 []).length →
        CsvLoaderErrors.labelColumnMismatch 1 ∈ ctx.errors) ∧
      (allRows.length ≤ 2 →
        CsvLoaderErrors.noDataRows ∈ ctx.errors ∧
        CsvLoaderErrors.noDataRows.severity = ErrorSeverity.WARNING) := by
  match allRows, hne with
  | a :: as, _ =>
  have hv : validateHeaderRow a = none :=
    validateHeaderRow_none (by simpa using hhne) (by simpa using hcells)
      (by simpa using hnodup)
  cases as with
  | nil =>
    refine ⟨{ columns := a, total_columns := a.length,
              errors := [CsvLoaderErrors.noDataRows],
              label_row_present := true, data_start_index := 2 },
      ?_, rfl, rfl, ?_, ?_, ?_⟩
    · simp [detectStructure, hv]
    · intro e he
      simp only [List.mem_singleton] at he
      subst he; decide
    · intro h; simp at h
    · intro _; exact ⟨List.mem_singleton.mpr rfl, rfl⟩
  | cons b bs =>
    cases bs with
    | nil =>
      by_cases hmis : b.length ≠ a.length
      · refine ⟨{ columns := a, total_columns := a.length,
                  errors := [CsvLoaderErrors.labelColumnMismatch 1,
                    CsvLoaderErrors.noDataRows],
                  label_row_present := true, data_start_index := 2 },
          ?_, rfl, rfl, ?_, ?_, ?_⟩
        · simp [detectStructure, hv, hmis]
        · intro e he
          simp only [List.mem_cons, List.mem_singleton, List.not_mem_nil,
            or_false] at he
          rcases he with he | he <;> subst he <;> decide
        · intro _ _; exact List.mem_cons_self _ _
        · intro _
          exact ⟨List.mem_cons_of_mem _ (List.mem_singleton.mpr rfl), rfl⟩
      · refine ⟨{ columns := a, total_columns := a.length,
                  errors := [CsvLoaderErrors.noDataRows],
                  label_row_present := true, data_start_index := 2 },
          ?_, rfl, rfl, ?_, ?_, ?_⟩
        · simp [detectStructure, hv, hmis]
        · intro e he
          simp only [List.mem_singleton] at he
          subst he; decide
        · intro _ h
          exact absurd h (by simpa using hmis)
        · intro _; exact ⟨List.mem_singleton.mpr rfl, rfl⟩
    | cons c cs =>
      by_cases hb : b.length ≠ a.length <;> by_cases hc : c.length ≠ a.length
      · refine ⟨{ columns := a, total_columns := a.length,
                  errors := [CsvLoaderErrors.labelColumnMismatch 1,
                    CsvLoaderErrors.rowColumnMismatch 2],
                  label_row_present := true, data_start_index := 2 },
          ?_, rfl, rfl, ?_, ?_, ?_⟩
        · simp [detectStructure, hv, hb, hc]
        · intro e he
          simp only [List.mem_cons, List.mem_singleton, List.not_mem_nil,
            or_false] at he
          rcases he with he | he <;> subst he <;> decide
        · intro _ _; exact List.mem_cons_self _ _
        · intro h; simp at h
      · refine ⟨{ columns := a, total_columns := a.length,
                  errors := [CsvLoaderErrors.labelColumnMismatch 1],
                  label_row_present := true, data_start_index := 2 },
          ?_, rfl, rfl, ?_, ?_, ?_⟩
        · simp [detectStructure, hv, hb, hc]
        · intro e he
          simp only [List.mem_singleton] at he
          subst he; decide
        · intro _ _; exact List.mem_cons_self _ _
        · intro h; simp at h
      · refine ⟨{ columns := a, total_columns := a.length,
                  errors := [CsvLoaderErrors.rowColumnMismatch 2],
                  label_row_present := true, data_start_index := 2 },
          ?_, rfl, rfl, ?_, ?_, ?_⟩
        · simp [detectStructure, hv, hb, hc]
        · intro e he
          simp only [List.mem_singleton] at he
          subst he; decide
        · intro _ h
          exact absurd h (by simpa using hb)
        · intro h; simp at h
      · refine ⟨{ columns := a, total_columns := a.length,
                  errors := [],
                  label_row_present := true, data_start_index := 2 },
          ?_, rfl, rfl, ?_, ?_, ?_⟩
        · simp [detectStructure, hv, hb, hc]
        · intro e he; simp at he
        · intro _ h
          exact absurd h (by simpa using hb)
        · intro h; simp at h

/-- Witness for C5: a concrete 3-row file whose header is valid and whose
label row has the wrong column count. -/
theorem claim_C5_witness :
    ∃ ctx : CsvContext,
      detectStructure [["a_id".toList, "b_id".toList], ["Label".toList],
        ["x".toList, "y".toList]] = (some ctx, none) ∧
      ctx.data_start_index = 2 ∧
      CsvLoaderErrors.labelColumnMismatch 1 ∈ ctx.errors := by
  obtain ⟨ctx, h1, h2, _, _, h5, _⟩ := claim_C5_detect_structure
    [["a_id".toList, "b_id".toList], ["Label".toList], ["x".toList, "y".toList]]
    (by decide) (by decide) (by decide) (by decide)
  exact ⟨ctx, h1, h2, h5 (by decide) (by decide)⟩

/-! ## Batch reader lemmas (claim C6) -/

theorem readBatchesAux_join (T B : Nat) :
    ∀ (rows : List (List Str)) (idx : Nat) (batch : List (List Str)),
    ((readBatchesAux T B rows idx batch).1).flatten =
      batch ++ rows.filter (fun r => r.length == T) := by
  intro rows
  induction rows with
  | nil =>
    intro idx batch
    simp only [readBatchesAux, List.filter_nil, List.append_nil]
    cases hb : batch.isEmpty
    · simp [List.flatten]
    · simp [List.isEmpty_iff.mp hb]
  | cons row rest ih =>
    intro idx batch
    by_cases hm : row.length ≠ T
    · have hf : (row.length == T) = false := by simpa using hm
      simp only [readBatchesAux, if_pos hm, ih, List.filter_cons, hf,
        Bool.false_eq_true, if_false]
    · have hf : (row.length == T) = true := by simpa using hm
      by_cases hy : B ≤ (batch ++ [row]).length
      · simp only [readBatchesAux, if_neg hm, if_pos hy, List.flatten_cons, ih,
          List.filter_cons, hf, if_true]
        simp
      · simp only [readBatchesAux, if_neg hm, if_neg hy, ih,
          List.filter_cons, hf, if_true]
        simp

theorem readBatchesAux_errors (T B : Nat) :
    ∀ (rows : List (List Str)) (idx : Nat) (batch : List (List Str)),
    (readBatchesAux T B rows idx batch).2 =
      (List.enumFrom idx rows).filterMap
        (fun p => if p.2.length ≠ T
          then some (CsvLoaderErrors.rowColumnMismatch p.1) else none) := by
  intro rows
  induction rows with
  | nil => intro idx batch; simp [readBatchesAux, List.enumFrom]
  | cons row rest ih =>
    intro idx batch
    by_cases hm : row.length ≠ T
    · simp only [readBatchesAux, if_pos hm, List.enumFrom, List.filterMap_cons,
        ih, if_pos hm]
    · by_cases hy : B ≤ (batch ++ [row]).length
      · simp only [readBatchesAux, if_neg hm, if_pos hy, List.enumFrom,
          List.filterMap_cons, ih, if_neg hm]
      · simp only [readBatchesAux, if_neg hm, if_neg hy, List.enumFrom,
          List.filterMap_cons, ih, if_neg hm]

theorem readBatchesAux_sizes (T B : Nat) :
    ∀ (rows : List (List Str)) (idx : Nat) (batch : List (List Str)),
    batch.length < B →
    ∀ b ∈ (readBatchesAux T B rows idx batch).1,
      0 < b.length ∧ b.length ≤ B := by
  intro rows
  induction rows with
  | nil =>
    intro idx batch hlt b hb
    simp only [readBatchesAux] at hb
    cases hbe : batch.isEmpty
    · rw [hbe] at hb
      simp only [Bool.false_eq_true, if_false, List.mem_singleton] at hb
      have hbne : batch ≠ [] := by simpa [List.isEmpty_iff] using hbe
      rw [hb]
      exact ⟨List.length_pos.mpr hbne, Nat.le_of_lt hlt⟩
    · rw [hbe] at hb
      simp at hb
  | cons row rest ih =>
    intro idx batch hlt b hb
    by_cases hm : row.length ≠ T
    · simp only [readBatchesAux, if_pos hm] at hb
      exact ih (idx + 1) batch hlt b hb
    · by_cases hy : B ≤ (batch ++ [row]).length
      · simp only [readBatchesAux, if_neg hm, if_pos hy, List.mem_cons] at hb
        rcases hb with hb | hb
        · subst hb
          constructor
          · simp
          · simp only [List.length_append, List.length_singleton]
            omega
        · have h0B : 0 < B := Nat.lt_of_le_of_lt (Nat.zero_le batch.length) hlt
          exact ih (idx + 1) [] (by simpa using h0B) b hb
      · simp only [readBatchesAux, if_neg hm, if_neg hy] at hb
        exact ih (idx + 1) (batch ++ [row]) (by omega) b hb

/-- Claim C6: `read_batches` skips exactly `data_start_index` rows, then
yields every well-sized data row, in order, in non-empty batches of at
most `BATCH_SIZE = 10000` rows; every row whose cell count differs from
the header's column count is excluded from all batches and recorded as a
non-fatal `ROW_COLUMN_COUNT_MISMATCH` error carrying that row's true
file index, the index counter advancing past excluded rows. -/
theorem claim_C6_read_batches (rows : List (List Str)) (context : CsvContext) :
    ((readBatches rows context).1.flatten =
      (rows.drop context.data_start_index).filter
        (fun r => r.length == context.total_columns)) ∧
    ((readBatches rows context).2 =
      (List.enumFrom context.data_start_index
        (rows.drop context.data_start_index)).filterMap
        (fun p => if p.2.length ≠ context.total_columns
          then some (CsvLoaderErrors.rowColumnMismatch p.1) else none)) ∧
    (∀ e ∈ (readBatches rows context).2,
      e.code = "ROW_COLUMN_COUNT_MISMATCH" ∧
      e.severity = ErrorSeverity.ERROR ∧
      e.severity ≠ ErrorSeverity.FATAL) ∧
    (∀ b ∈ (readBatches rows context).1,
      0 < b.length ∧ b.length ≤ BATCH_SIZE) := by
  refine ⟨?_, ?_, ?_, ?_⟩
  · simpa using readBatchesAux_join context.total_columns BATCH_SIZE
      (rows.drop context.data_start_index) context.data_start_index []
  · exact readBatchesAux_errors context.total_columns BATCH_SIZE
      (rows.drop context.data_start_index) context.data_start_index []
  · intro e he
    rw [readBatches, readBatchesAux_errors] at he
    obtain ⟨p, _, hpe⟩ := List.mem_filterMap.mp he
    by_cases hp : p.2.length ≠ context.total_columns
    · rw [if_pos hp] at hpe
      obtain rfl := Option.some.inj hpe
      exact ⟨rfl, rfl, by simp [CsvLoaderErrors.rowColumnMismatch]⟩
    · rw [if_neg hp] at hpe
      exact absurd hpe (by simp)
  · intro b hb
    exact readBatchesAux_sizes context.total_columns BATCH_SIZE
      (rows.drop context.data_start_index) context.data_start_index []
      (by simp [BATCH_SIZE]) b hb

/-- Witness for C6: a 5-row file (header, label, one good row, one
short row, one good row) with 2 header columns and
`data_start_index = 2`. -/
theorem claim_C6_witness :
    ∀ e ∈ (readBatches
      [["a_id".toList, "b_id".toList], ["L".toList, "M".toList],
       ["1".toList, "2".toList], ["bad".toList],
       ["3".toList, "4".toList]]
      { columns := ["a_id".toList, "b_id".toList], total_columns := 2,
        errors := [], label_row_present := true,
        data_start_index := 2 }).2,
      e.code = "ROW_COLUMN_COUNT_MISMATCH" ∧
      e.severity = ErrorSeverity.ERROR ∧
      e.severity ≠ ErrorSeverity.FATAL :=
  (claim_C6_read_batches
    [["a_id".toList, "b_id".toList], ["L".toList, "M".toList],
     ["1".toList, "2".toList], ["bad".toList],
     ["3".toList, "4".toList]]
    { columns := ["a_id".toList, "b_id".toList], total_columns := 2,
      errors := [], label_row_present := true,
      data_start_index := 2 }).2.2.1

/-! ## Encoding resolver lemmas (claim C7) -/

theorem strictFallbackLoop_first (o : DecodeOracle) :
    ∀ (l : List String) (i : Nat), i < l.length →
    (∀ j, j < i → o.decodesStrict (l.getD j "") = false) →
    o.decodesStrict (l.getD i "") = true →
    strictFallbackLoop o l = some (l.getD i "") := by
  intro l
  induction l with
  | nil => intro i hi; simp at hi
  | cons e rest ih =>
    intro i hi hprev hcur
    cases i with
    | zero =>
      simp only [List.getD_cons_zero] at hcur ⊢
      simp [strictFallbackLoop, hcur]
    | succ j =>
      have h0 : o.decodesStrict e = false := by
        simpa using hprev 0 (Nat.succ_pos j)
      simp only [strictFallbackLoop, h0, Bool.false_eq_true, if_false,
        List.getD_cons_succ] at hcur ⊢
      exact ih j (by simpa using hi)
        (fun j' hj' => by simpa using hprev (j' + 1) (by omega)) hcur

theorem strictFallbackLoop_none (o : DecodeOracle) :
    ∀ l : List String, (∀ e ∈ l, o.decodesStrict e = false) →
    strictFallbackLoop o l = none := by
  intro l
  induction l with
  | nil => intro _; rfl
  | cons e rest ih =>
    intro h
    have h0 := h e (List.mem_cons_self e rest)
    simp only [strictFallbackLoop, h0, Bool.false_eq_true, if_false]
    exact ih (fun e' he' => h e' (List.mem_cons_of_mem e he'))

theorem replaceFallbackLoop_first (o : DecodeOracle) :
    ∀ (l : List String) (i : Nat), i < l.length →
    (∀ j, j < i → o.decodesReplace (l.getD j "") = false) →
    o.decodesReplace (l.getD i "") = true →
    replaceFallbackLoop o l = some (l.getD i "") := by
  intro l
  induction l with
  | nil => intro i hi; simp at hi
  | cons e rest ih =>
    intro i hi hprev hcur
    cases i with
    | zero =>
      simp only [List.getD_cons_zero] at hcur ⊢
      simp [replaceFallbackLoop, hcur]
    | succ j =>
      have h0 : o.decodesReplace e = false := by
        simpa using hprev 0 (Nat.succ_pos j)
      simp only [replaceFallbackLoop, h0, Bool.false_eq_true, if_false,
        List.getD_cons_succ] at hcur ⊢
      exact ih j (by simpa using hi)
        (fun j' hj' => by simpa using hprev (j' + 1) (by omega)) hcur

/-- Claim C7 is corrected: the lossy-substitution fallback's
`INVALID_CHARACTERS` error carries severity `ERROR`, not `WARNING`.
This counterexample exhibits a non-empty one-byte sample and an oracle
on which no strict decode succeeds, so the substitution fallback fires:
the returned error's severity is `ERROR` and is not `WARNING` as the
claim states. -/
theorem claim_C7_counterexample :
    detectEncoding [0]
      { chardetEncoding := "", chardetConfidence := 0,
        decodesStrict := fun _ => false, decodesReplace := fun _ => true } =
      (some "utf-8-sig", some (CsvLoaderErrors.invalidCharacters 0 0)) ∧
    (CsvLoaderErrors.invalidCharacters 0 0).severity ≠
      ErrorSeverity.WARNING := by
  constructor
  · have hfb : detectEncoding [0]
        { chardetEncoding := "", chardetConfidence := 0,
          decodesStrict := fun _ => false, decodesReplace := fun _ => true } =
        encodingFallback
          { chardetEncoding := "", chardetConfidence := 0,
            decodesStrict := fun _ => false, decodesReplace := fun _ => true } := by
      rw [detectEncoding, if_neg (by decide)]
      exact if_neg (fun hcon => absurd hcon.1 (by norm_num))
    rw [hfb, encodingFallback,
      strictFallbackLoop_none _ ENCODING_PRIORITY (fun e _ => rfl),
      replaceFallbackLoop_first _ ENCODING_PRIORITY 0 (by decide)
        (fun j hj => absurd hj (Nat.not_lt_zero j)) rfl]
    rfl
  · decide

/-- Claim C7 (amended): on a non-empty sample, when the
confident-heuristic path is not taken, `detect_encoding` walks the fixed
priority list `utf-8-sig, utf-8, latin-1, cp1252, iso-8859-1` and
returns the first encoding that decodes strictly; if none decodes
strictly it returns the first that decodes with substitution together
with a non-fatal `INVALID_CHARACTERS` error of severity ERROR (not
WARNING); an empty file fails fatally. -/
theorem claim_C7_encoding_fallback (raw_data : List Nat) (o : DecodeOracle)
    (hne : raw_data ≠ [])
    (hnc : ¬((7 : ℚ)/10 < o.chardetConfidence ∧ o.chardetEncoding.toLower ≠ "")) :
    (∀ o' : DecodeOracle,
      detectEncoding [] o' = (none, some CsvLoaderErrors.emptyFile) ∧
      CsvLoaderErrors.emptyFile.severity = ErrorSeverity.FATAL) ∧
    (∀ i, i < ENCODING_PRIORITY.length →
      (∀ j, j < i → o.decodesStrict (ENCODING_PRIORITY.getD j "") = false) →
      o.decodesStrict (ENCODING_PRIORITY.getD i "") = true →
      detectEncoding raw_data o = (some (ENCODING_PRIORITY.getD i ""), none)) ∧
    ((∀ e ∈ ENCODING_PRIORITY, o.decodesStrict e = false) →
      ∀ i, i < ENCODING_PRIORITY.length →
      (∀ j, j < i → o.decodesReplace (ENCODING_PRIORITY.getD j "") = false) →
      o.decodesReplace (ENCODING_PRIORITY.getD i "") = true →
      detectEncoding raw_data o =
        (some (ENCODING_PRIORITY.getD i ""),
         some (CsvLoaderErrors.invalidCharacters 0 0)) ∧
      (CsvLoaderErrors.invalidCharacters 0 0).severity = ErrorSeverity.ERROR ∧
      (CsvLoaderErrors.invalidCharacters 0 0).severity ≠ ErrorSeverity.FATAL) := by
  have hfb : detectEncoding raw_data o = encodingFallback o := by
    rw [detectEncoding, if_neg (by simpa [List.isEmpty_iff] using hne)]
    simp only [if_neg hnc]
  refine ⟨?_, ?_, ?_⟩
  · intro o'
    exact ⟨rfl, rfl⟩
  · intro i hi hprev hcur
    rw [hfb, encodingFallback, strictFallbackLoop_first o ENCODING_PRIORITY i
      hi hprev hcur]
  · intro hnone i hi hprev hcur
    refine ⟨?_, rfl, by decide⟩
    rw [hfb, encodingFallback, strictFallbackLoop_none o ENCODING_PRIORITY hnone,
      replaceFallbackLoop_first o ENCODING_PRIORITY i hi hprev hcur]

/-- Witness for C7 (amended) on an oracle that decodes strictly only at
`latin-1`, the third entry of the priority list. -/
theorem claim_C7_witness :
    detectEncoding [0]
      { chardetEncoding := "", chardetConfidence := 0,
        decodesStrict := fun e => e == "latin-1",
        decodesReplace := fun _ => true } = (some "latin-1", none) := by
  have h := claim_C7_encoding_fallback [0]
    { chardetEncoding := "", chardetConfidence := 0,
      decodesStrict := fun e => e == "latin-1",
      decodesReplace := fun _ => true }
    (by decide) (fun hcon => absurd hcon.1 (by norm_num))
  have h2 := h.2.1 2 (by decide)
    (by
      intro j hj
      match j, hj with
      | 0, _ => rfl
      | 1, _ => rfl)
    (by rfl)
  simpa using h2

/-! ## Row transformer lemmas (claim C1) -/

theorem transformRowStep_indices (row_index : Nat) (m : List (Nat × Str))
    (e : List (Str × EntityData)) (acc : TransformedRow) (p : Nat × Str) :
    (transformRowStep row_index m e acc p).original_row_index =
      acc.original_row_index ∧
    (transformRowStep row_index m e acc p).csv_row_index =
      acc.csv_row_index := by
  simp only [transformRowStep]
  repeat' split
  all_goals exact ⟨rfl, rfl⟩

theorem transformRow_foldl_indices (row_index : Nat) (m : List (Nat × Str))
    (e : List (Str × EntityData)) :
    ∀ (l : List (Nat × Str)) (acc : TransformedRow),
    (l.foldl (transformRowStep row_index m e) acc).original_row_index =
      acc.original_row_index ∧
    (l.foldl (transformRowStep row_index m e) acc).csv_row_index =
      acc.csv_row_index := by
  intro l
  induction l with
  | nil => intro acc; exact ⟨rfl, rfl⟩
  | cons p rest ih =>
    intro acc
    rw [List.foldl_cons]
    have hs := transformRowStep_indices row_index m e acc p
    have hr := ih (transformRowStep row_index m e acc p)
    exact ⟨hr.1.trans hs.1, hr.2.trans hs.2⟩

theorem transformRow_indices (row_values : List Str)
    (row_index csv_start_index : Nat) (m : List (Nat × Str))
    (e : List (Str × EntityData)) :
    (transformRow row_values row_index csv_start_index m e).original_row_index =
      row_index ∧
    (transformRow row_values row_index csv_start_index m e).csv_row_index =
      csv_start_index + row_index := by
  simp only [transformRow]
  exact transformRow_foldl_indices row_index m e row_values.enum _

/-- The indices `transform_batch` actually assigns: row `off` of batch
`b` gets `original_row_index = b * len(batch) + off`. -/
theorem transformBatch_indices (batch_rows : List (List Str)) (b s : Nat)
    (m : List (Nat × Str)) (e : List (Str × EntityData)) :
    (transformBatch batch_rows b s m e).map (fun r => r.original_row_index) =
      (List.range batch_rows.length).map
        (fun off => b * batch_rows.length + off) ∧
    (transformBatch batch_rows b s m e).map (fun r => r.csv_row_index) =
      (List.range batch_rows.length).map
        (fun off => s + (b * batch_rows.length + off)) := by
  unfold transformBatch
  rw [List.map_map, List.map_map]
  constructor
  · have hcong : batch_rows.enum.map
        ((fun r : TransformedRow => r.original_row_index) ∘ (fun p =>
          transformRow p.2 (b * batch_rows.length + p.1) s m e)) =
        batch_rows.enum.map (fun p => b * batch_rows.length + p.1) :=
      List.map_congr_left (fun p _ =>
        (transformRow_indices p.2 (b * batch_rows.length + p.1) s m e).1)
    rw [hcong]
    rw [show (fun p : Nat × List Str => b * batch_rows.length + p.1) =
      (fun i => b * batch_rows.length + i) ∘ Prod.fst from rfl]
    rw [← List.map_map, List.enum_map_fst]
  · have hcong : batch_rows.enum.map
        ((fun r : TransformedRow => r.csv_row_index) ∘ (fun p =>
          transformRow p.2 (b * batch_rows.length + p.1) s m e)) =
        batch_rows.enum.map (fun p => s + (b * batch_rows.length + p.1)) :=
      List.map_congr_left (fun p _ =>
        (transformRow_indices p.2 (b * batch_rows.length + p.1) s m e).2)
    rw [hcong]
    rw [show (fun p : Nat × List Str => s + (b * batch_rows.length + p.1)) =
      (fun i => s + (b * batch_rows.length + i)) ∘ Prod.fst from rfl]
    rw [← List.map_map, List.enum_map_fst]

theorem getD_map_range (n i : Nat) (f : Nat → Nat) (h : i < n) :
    ((List.range n).map f).getD i 0 = f i := by
  rw [List.getD_eq_getElem?_getD, List.getElem?_map, List.getElem?_range h]
  rfl

/-- Claim C1 is a code bug: batching is not transparent.  For a
25,000-row file, single-batch processing gives the row at overall
position 20,000 `original_row_index = 20000` (`csv_row_index = 20002`),
but when the reader splits the file into batches of
10,000 + 10,000 + 5,000 rows, the same row — the first row of the third
batch (`batch_index = 2`, 5,000 rows) — gets
`original_row_index = 2 * 5000 + 0 = 10000` (`csv_row_index = 10002`),
because `transform_batch` multiplies `batch_index` by the *current*
batch's length instead of the fixed batch size. -/
theorem claim_C1_batching_not_transparent :
    (((transformBatch (List.replicate 25000 ([] : List Str)) 0 2 [] []).map
        (fun r => r.original_row_index)).getD 20000 0 = 20000) ∧
    (((transformBatch (List.replicate 5000 ([] : List Str)) 2 2 [] []).map
        (fun r => r.original_row_index)).getD 0 0 = 10000) ∧
    (((transformBatch (List.replicate 25000 ([] : List Str)) 0 2 [] []).map
        (fun r => r.csv_row_index)).getD 20000 0 = 20002) ∧
    (((transformBatch (List.replicate 5000 ([] : List Str)) 2 2 [] []).map
        (fun r => r.csv_row_index)).getD 0 0 = 10002) ∧
    (10000 : Nat) ≠ 20000 ∧ (10002 : Nat) ≠ 20002 := by
  have h25 := transformBatch_indices (List.replicate 25000 ([] : List Str))
    0 2 [] []
  have h5 := transformBatch_indices (List.replicate 5000 ([] : List Str))
    2 2 [] []
  rw [List.length_replicate] at h25 h5
  refine ⟨?_, ?_, ?_, ?_, by norm_num, by norm_num⟩
  · rw [h25.1, getD_map_range _ _ _ (by norm_num)]
  · rw [h5.1, getD_map_range _ _ _ (by norm_num)]
  · rw [h25.2, getD_map_range _ _ _ (by norm_num)]
  · rw [h5.2, getD_map_range _ _ _ (by norm_num)]

/-! ## Rule engine lemmas (claims C4, C8) -/

theorem runFieldRules_append (xs ys : List FieldRule) (inp : FieldRuleInput) :
    runFieldRules (xs ++ ys) inp =
      runFieldRules xs inp ++ runFieldRules ys inp := by
  induction xs with
  | nil => rfl
  | cons r rest ih =>
    simp only [List.cons_append, runFieldRules, List.append_eq]
    rw [ih, List.append_assoc]

theorem executeScopedRules_append {γ : Type}
    (xs ys : List (ScopedRule γ)) (context : γ) :
    executeScopedRules (xs ++ ys) context =
      executeScopedRules xs context ++ executeScopedRules ys context := by
  induction xs with
  | nil => rfl
  | cons r rest ih =>
    simp only [List.cons_append, executeScopedRules, List.append_eq]
    rw [ih, List.append_assoc]

/-- Claim C4: rule-failure isolation.  A rule whose `validate` raises
(at FIELD or at GLOBAL/ENTITY scope) contributes exactly one FATAL
`RULE_EXECUTION_FAILED` error whose details identify that rule's id;
the rules before and after it still contribute exactly what they would
have contributed anyway, and the batch completes (its processed row
count is the full batch size, the run is not aborted). -/
theorem claim_C4_rule_failure_isolation {γ : Type}
    (xs ys : List FieldRule) (r : FieldRule) (inp : FieldRuleInput)
    (gxs gys : List (ScopedRule γ)) (g : ScopedRule γ) (context : γ)
    (e : String) (hskip : r.should_skip inp.field_metadata inp.value = false)
    (hraise : r.validate inp = .error e)
    (eg : String) (hgraise : g.validate context = .error eg) :
    runFieldRules (xs ++ r :: ys) inp =
      runFieldRules xs inp ++
        ComparatorErrors.ruleExecutionFailed r.rule_id none ::
        runFieldRules ys inp ∧
    executeScopedRules (gxs ++ g :: gys) context =
      executeScopedRules gxs context ++
        ComparatorErrors.ruleExecutionFailed g.rule_id none ::
        executeScopedRules gys context ∧
    (ComparatorErrors.ruleExecutionFailed r.rule_id none).severity =
      ValidationSeverity.FATAL ∧
    (ComparatorErrors.ruleExecutionFailed r.rule_id none).code =
      "RULE_EXECUTION_FAILED" ∧
    (ComparatorErrors.ruleExecutionFailed r.rule_id none).details_rule_id =
      some r.rule_id ∧
    (∀ (mctx : MetadataContext) (parsed_columns : List ParsedColumn)
      (entities : List (Str × EntityData)) (batch_rows : List TransformedRow)
      (batch_index : Nat),
      (validateBatch (gxs ++ g :: gys) [] (xs ++ r :: ys) context mctx
        parsed_columns entities batch_rows batch_index).processed_rows =
        batch_rows.length) := by
  refine ⟨?_, ?_, rfl, rfl, rfl, fun _ _ _ _ _ => rfl⟩
  · rw [runFieldRules_append]
    simp only [runFieldRules, hskip, Bool.false_eq_true, if_false, hraise]
    rfl
  · rw [executeScopedRules_append]
    simp only [executeScopedRules, hgraise]
    rfl

/-- Witness for C4: a raising rule inserted among the three built-in
FIELD rules (`not_null`, `data_type`, `max_length`) on a concrete
required field with `max_length = 3` and value `"abcd"`. -/
theorem claim_C4_witness :
    runFieldRules
      [notNullRule, dataTypeRule,
       { rule_id := "exploding", should_skip := fun _ _ => false,
         validate := fun _ => Except.error "boom" },
       maxLengthRule]
      { entity_id := "personInfo".toList
        field_metadata :=
          { element_id := "personInfo".toList, field_id := "name".toList
            full_path := "personInfo_name".toList, is_required := true
            max_length := some 3 }
        value := some "abcd".toList
        row_index := 0, csv_row_index := 2
        column_name := none, person_id_external := none } =
      runFieldRules [notNullRule, dataTypeRule]
        { entity_id := "personInfo".toList
          field_metadata :=
            { element_id := "personInfo".toList, field_id := "name".toList
              full_path := "personInfo_name".toList, is_required := true
              max_length := some 3 }
          value := some "abcd".toList
          row_index := 0, csv_row_index := 2
          column_name := none, person_id_external := none } ++
        ComparatorErrors.ruleExecutionFailed "exploding" none ::
        runFieldRules [maxLengthRule]
          { entity_id := "personInfo".toList
            field_metadata :=
              { element_id := "personInfo".toList, field_id := "name".toList
                full_path := "personInfo_name".toList, is_required := true
                max_length := some 3 }
            value := some "abcd".toList
            row_index := 0, csv_row_index := 2
            column_name := none, person_id_external := none } :=
  (claim_C4_rule_failure_isolation
    [notNullRule, dataTypeRule] [maxLengthRule]
    { rule_id := "exploding", should_skip := fun _ _ => false,
      validate := fun _ => Except.error "boom" }
    { entity_id := "personInfo".toList
      field_metadata :=
        { element_id := "personInfo".toList, field_id := "name".toList
          full_path := "personInfo_name".toList, is_required := true
          max_length := some 3 }
      value := some "abcd".toList
      row_index := 0, csv_row_index := 2
      column_name := none, person_id_external := none }
    ([] : List (ScopedRule Unit)) []
    { rule_id := "gexploding", validate := fun _ => Except.error "gboom" }
    () "boom" rfl rfl "gboom" rfl).1

/-- Claim C8 is corrected: the engine does not try the literal
column-name lookup before the entity's own field map.  At this concrete
input the exact `e_f` path is absent, the column-name path `COL`
resolves (per the claim's order) to metadata with `max_length = 7` —
under which `max_length` raises no error for the 6-character value —
yet the engine resolves the entity field map's metadata
(`max_length = 5`) first and emits `MAX_LENGTH_EXCEEDED`. -/
theorem claim_C8_counterexample :
    claimedResolveOrder cexMctx "e".toList "f".toList (some "COL".toList) =
      some cexM2 ∧
    getColumnName cexEntities "e".toList "f".toList = some "COL".toList ∧
    validateTriple [maxLengthRule] cexMctx cexEntities
      "e".toList "f".toList "123456".toList 0 2 none =
      [ComparatorErrors.maxLengthExceeded 0 2 "e".toList "f".toList
        "COL".toList none] ∧
    runFieldRules [maxLengthRule]
      { entity_id := "e".toList, field_metadata := cexM2,
        value := some "123456".toList, row_index := 0, csv_row_index := 2,
        column_name := some "COL".toList, person_id_external := none } = [] ∧
    cexM1 ≠ cexM2 := by
  refine ⟨by decide, by decide, by decide, by decide, by decide⟩

/-- Claim C8 (amended): for every `(entity, field, value)` triple the
engine resolves `FieldMetadata` by trying, in this order: exact
`entity_field` full-path lookup, then the entity's own field map under
the row's field id; if both fail, the field id is re-derived from the
column name's last segment and the engine tries the pattern list —
`entity_field`, country-prefix-stripped (`MEX_`/`USA_`/`BRA_`/`CAN_`
prefixes only), the literal column name, the column name with `_`
replaced by `.` — and finally the entity's field map again under the
re-derived field id.  If all fail it emits exactly one WARNING
`MISSING_METADATA_FOR_FIELD` and runs no FIELD rules on the triple; if
any succeeds, every enabled FIELD rule runs unless its `should_skip`
returns true. -/
theorem claim_C8_field_resolution (field_rules : List FieldRule)
    (mctx : MetadataContext) (entities : List (Str × EntityData))
    (entity_id field_id : Str) (value : Str) (row_index csv_row_index : Nat)
    (person_id_external : Option Str) :
    (∀ fm, orderedResolve mctx entity_id field_id
        (getColumnName entities entity_id field_id) = some fm →
      validateTriple field_rules mctx entities entity_id field_id value
        row_index csv_row_index person_id_external =
      runFieldRules field_rules
        { entity_id := entity_id, field_metadata := fm, value := some value,
          row_index := row_index, csv_row_index := csv_row_index,
          column_name := getColumnName entities entity_id field_id,
          person_id_external := person_id_external }) ∧
    (orderedResolve mctx entity_id field_id
        (getColumnName entities entity_id field_id) = none →
      ∃ w, validateTriple field_rules mctx entities entity_id field_id value
          row_index csv_row_index person_id_external = [w] ∧
        w.code = "MISSING_METADATA_FOR_FIELD" ∧
        w.severity = ValidationSeverity.WARNING) ∧
    (∀ (xs ys : List FieldRule) (r : FieldRule) (inp : FieldRuleInput),
      r.should_skip inp.field_metadata inp.value = true →
      runFieldRules (xs ++ r :: ys) inp =
        runFieldRules xs inp ++ runFieldRules ys inp) := by
  refine ⟨?_, ?_, ?_⟩
  · intro fm hfm
    rw [validateTriple, validateField.eq_def]
    rw [orderedResolve.eq_def] at hfm
    cases hr : resolveInRow mctx entity_id field_id with
    | some fm0 =>
      rw [hr] at hfm
      simp only [Option.some.injEq] at hfm
      subst hfm
      rfl
    | none =>
      rw [hr] at hfm
      simp only at hfm ⊢
      cases hp : firstPatternHit mctx.field_by_full_path
          (buildFieldSearchPatterns entity_id
            (match getColumnName entities entity_id field_id with
             | some cn =>
               if 2 ≤ (splitOnChar '_' cn).length
               then (splitOnChar '_' cn).getLastD [] else cn
             | none => "unknown_field".toList)
            (getColumnName entities entity_id field_id)) with
      | some fmp =>
        rw [hp] at hfm
        simp only [Option.some.injEq] at hfm
        subst hfm
        simp only [hp]
      | none =>
        rw [hp] at hfm
        simp only [hp]
        cases he : alookup mctx.entities entity_id with
        | some em =>
          rw [he] at hfm
          have hfm' : alookup em.fields
              (match getColumnName entities entity_id field_id with
               | some cn =>
                 if 2 ≤ (splitOnChar '_' cn).length
                 then (splitOnChar '_' cn).getLastD [] else cn
               | none => "unknown_field".toList) = some fm := hfm
          simp only [hfm']
        | none =>
          rw [he] at hfm
          simp at hfm
  · intro hnone
    rw [validateTriple, validateField.eq_def]
    rw [orderedResolve.eq_def] at hnone
    cases hr : resolveInRow mctx entity_id field_id with
    | some fm0 => rw [hr] at hnone; simp at hnone
    | none =>
      rw [hr] at hnone
      simp only at hnone ⊢
      cases hp : firstPatternHit mctx.field_by_full_path
          (buildFieldSearchPatterns entity_id
            (match getColumnName entities entity_id field_id with
             | some cn =>
               if 2 ≤ (splitOnChar '_' cn).length
               then (splitOnChar '_' cn).getLastD [] else cn
             | none => "unknown_field".toList)
            (getColumnName entities entity_id field_id)) with
      | some fmp => rw [hp] at hnone; simp at hnone
      | none =>
        rw [hp] at hnone
        simp only [hp]
        cases he : alookup mctx.entities entity_id with
        | some em =>
          rw [he] at hnone
          have hnone' : alookup em.fields
              (match getColumnName entities entity_id field_id with
               | some cn =>
                 if 2 ≤ (splitOnChar '_' cn).length
                 then (splitOnChar '_' cn).getLastD [] else cn
               | none => "unknown_field".toList) = none := hnone
          simp only [hnone']
          by_cases hc : hasCsfEntityPfx entity_id = true
          · simp only [hc, if_true]
            exact ⟨_, rfl, rfl, rfl⟩
          · simp only [if_neg hc]
            exact ⟨_, rfl, rfl, rfl⟩
        | none =>
          by_cases hc : hasCsfEntityPfx entity_id = true
          · simp only [hc, if_true]
            exact ⟨_, rfl, rfl, rfl⟩
          · simp only [if_neg hc]
            exact ⟨_, rfl, rfl, rfl⟩
  · intro xs ys r inp hskip
    rw [runFieldRules_append]
    simp only [runFieldRules, hskip, if_true, List.nil_append]

/-- Witness for C8 (amended): an exact-path hit on a concrete context
drives the FIELD rules with the resolved metadata. -/
theorem claim_C8_witness :
    validateTriple [maxLengthRule]
      { field_by_full_path := [("e_f".toList, cexM1)] } []
      "e".toList "f".toList "123456".toList 0 2 none =
      runFieldRules [maxLengthRule]
        { entity_id := "e".toList, field_metadata := cexM1,
          value := some "123456".toList, row_index := 0, csv_row_index := 2,
          column_name := none, person_id_external := none } :=
  (claim_C8_field_resolution [maxLengthRule]
    { field_by_full_path := [("e_f".toList, cexM1)] } []
    "e".toList "f".toList "123456".toList 0 2 none).1 cexM1 (by decide)

/-! ## Reporting lemmas (claim C9) -/

theorem metricsStep_error_counts (m : ValidationMetrics) (e : ValidationError) :
    (metricsStep m e).error_counts =
      aset m.error_counts e.code ((alookup m.error_counts e.code).getD 0 + 1) := by
  simp only [metricsStep]
  split
  · rfl
  · split <;> rfl

theorem metricsStep_severity_counts (m : ValidationMetrics) (e : ValidationError) :
    (metricsStep m e).severity_counts =
      aset m.severity_counts (severityValue e.severity)
        ((alookup m.severity_counts (severityValue e.severity)).getD 0 + 1) := by
  simp only [metricsStep]
  split
  · rfl
  · split <;> rfl

theorem metricsStep_identificador_counts (m : ValidationMetrics)
    (e : ValidationError) :
    (metricsStep m e).identificador_counts =
      aset m.identificador_counts "personInfo_person-id-external"
        ((alookup m.identificador_counts
          "personInfo_person-id-external").getD 0 + 1) := by
  simp only [metricsStep]
  split
  · rfl
  · split <;> rfl

theorem metricsStep_total_batches (m : ValidationMetrics) (e : ValidationError) :
    (metricsStep m e).total_batches = m.total_batches := by
  simp only [metricsStep]
  split
  · rfl
  · split <;> rfl

theorem foldl_metricsStep_error_counts :
    ∀ (l : List ValidationError) (m : ValidationMetrics),
    (l.foldl metricsStep m).error_counts =
      l.foldl (fun acc e => aset acc e.code
        ((alookup acc e.code).getD 0 + 1)) m.error_counts := by
  intro l
  induction l with
  | nil => intro m; rfl
  | cons e rest ih =>
    intro m
    rw [List.foldl_cons, List.foldl_cons, ih, metricsStep_error_counts]

theorem foldl_metricsStep_severity_counts :
    ∀ (l : List ValidationError) (m : ValidationMetrics),
    (l.foldl metricsStep m).severity_counts =
      l.foldl (fun acc e => aset acc (severityValue e.severity)
        ((alookup acc (severityValue e.severity)).getD 0 + 1))
        m.severity_counts := by
  intro l
  induction l with
  | nil => intro m; rfl
  | cons e rest ih =>
    intro m
    rw [List.foldl_cons, List.foldl_cons, ih, metricsStep_severity_counts]

theorem foldl_metricsStep_identificador_counts :
    ∀ (l : List ValidationError) (m : ValidationMetrics),
    (l.foldl metricsStep m).identificador_counts =
      l.foldl (fun acc _ => aset acc "personInfo_person-id-external"
        ((alookup acc "personInfo_person-id-external").getD 0 + 1))
        m.identificador_counts := by
  intro l
  induction l with
  | nil => intro m; rfl
  | cons e rest ih =>
    intro m
    rw [List.foldl_cons, List.foldl_cons, ih, metricsStep_identificador_counts]

theorem foldl_metricsStep_total_batches :
    ∀ (l : List ValidationError) (m : ValidationMetrics),
    (l.foldl metricsStep m).total_batches = m.total_batches := by
  intro l
  induction l with
  | nil => intro m; rfl
  | cons e rest ih =>
    intro m
    rw [List.foldl_cons, ih, metricsStep_total_batches]

theorem foldl_metricsBatchStep_counts :
    ∀ (l : List BatchValidationResult) (m : ValidationMetrics),
    (l.foldl metricsBatchStep m).error_counts = m.error_counts ∧
    (l.foldl metricsBatchStep m).severity_counts = m.severity_counts ∧
    (l.foldl metricsBatchStep m).identificador_counts =
      m.identificador_counts ∧
    (l.foldl metricsBatchStep m).total_batches =
      m.total_batches + l.length := by
  intro l
  induction l with
  | nil => intro m; exact ⟨rfl, rfl, rfl, rfl⟩
  | cons br rest ih =>
    intro m
    rw [List.foldl_cons]
    obtain ⟨h1, h2, h3, h4⟩ := ih (metricsBatchStep m br)
    refine ⟨h1, h2, h3, ?_⟩
    rw [h4]
    simp only [metricsBatchStep, List.length_cons]
    omega

/-- First-match lookup after a counting fold: the count of elements with
the given key, on top of whatever the initial table held. -/
theorem foldl_bump_lookup {β : Type} (key : β → String) :
    ∀ (l : List β) (init : List (String × Nat)) (k : String),
    alookup (l.foldl (fun acc e => aset acc (key e)
      ((alookup acc (key e)).getD 0 + 1)) init) k =
      (match alookup init k with
       | none =>
         if (l.filter (fun e => key e == k)).length = 0 then none
         else some ((l.filter (fun e => key e == k)).length)
       | some m0 => some (m0 + (l.filter (fun e => key e == k)).length)) := by
  intro l
  induction l with
  | nil =>
    intro init k
    simp only [List.foldl_nil, List.filter_nil, List.length_nil, if_pos rfl]
    cases alookup init k <;> simp
  | cons e rest ih =>
    intro init k
    rw [List.foldl_cons, ih]
    by_cases hk : key e = k
    · subst hk
      have h1 : alookup (aset init (key e)
          ((alookup init (key e)).getD 0 + 1)) (key e) =
          some ((alookup init (key e)).getD 0 + 1) :=
        alookup_aset_self init (key e) _
      rw [h1]
      have hf : (List.filter (fun x => key x == key e) (e :: rest)).length =
          (List.filter (fun x => key x == key e) rest).length + 1 := by
        simp [List.filter_cons]
      rw [hf]
      cases h0 : alookup init (key e) with
      | none => simp; omega
      | some m0 => simp [h0]; omega
    · have h1 : alookup (aset init (key e)
          ((alookup init (key e)).getD 0 + 1)) k = alookup init k :=
        alookup_aset_ne init _ (fun h => hk h.symm)
      rw [h1]
      have hf : (List.filter (fun x => key x == k) (e :: rest)).length =
          (List.filter (fun x => key x == k) rest).length := by
        simp [List.filter_cons, hk]
      rw [hf]

/-- Lookup at a key never bumped by a constant-key counting fold. -/
theorem foldl_bump_const_other {β : Type} :
    ∀ (l : List β) (init : List (String × Nat)) (k k0 : String), k ≠ k0 →
    alookup (l.foldl (fun acc _ => aset acc k0
      ((alookup acc k0).getD 0 + 1)) init) k = alookup init k := by
  intro l
  induction l with
  | nil => intro init k k0 _; rfl
  | cons e rest ih =>
    intro init k k0 hk
    rw [List.foldl_cons, ih _ _ _ hk, alookup_aset_ne init _ hk]

/-- Claim C9 is corrected: the per-business-identifier counts do not
key on identifier values at all.  Two errors carrying the distinct
identifiers `A` and `B` are both counted under the constant key
`personInfo_person-id-external`, and no entry for `A` exists. -/
theorem claim_C9_counterexample :
    (calculateMetrics [⟨0, 1,
      [{ code := "X", severity := ValidationSeverity.ERROR,
         scope := ValidationScope.FIELD,
         person_id_external := some "A".toList },
       { code := "X", severity := ValidationSeverity.ERROR,
         scope := ValidationScope.FIELD,
         person_id_external := some "B".toList }]⟩]).identificador_counts =
      [("personInfo_person-id-external", 2)] ∧
    alookup (calculateMetrics [⟨0, 1,
      [{ code := "X", severity := ValidationSeverity.ERROR,
         scope := ValidationScope.FIELD,
         person_id_external := some "A".toList },
       { code := "X", severity := ValidationSeverity.ERROR,
         scope := ValidationScope.FIELD,
         person_id_external := some "B".toList }]⟩]).identificador_counts
      "A" = none := by
  exact ⟨by decide, by decide⟩

/-- Claim C9 (amended): `create_report`'s severity→level mapping is
FATAL/ERROR ⇒ ERROR, WARNING ⇒ WARNING, anything else (a missing
severity) ⇒ INFO, applied entry-wise; the metrics contain per-error-code
counts and per-severity-value counts (each key's count is the number of
flattened errors carrying it), a batch count, and — instead of counts
per business-identifier value — a single counter under the constant key
`personInfo_person-id-external` equal to the total number of flattened
errors. -/
theorem claim_C9_report_aggregation (batch_results : List BatchValidationResult) :
    mapSeverityToLevel (some ValidationSeverity.FATAL) = ReportLevel.ERROR ∧
    mapSeverityToLevel (some ValidationSeverity.ERROR) = ReportLevel.ERROR ∧
    mapSeverityToLevel (some ValidationSeverity.WARNING) = ReportLevel.WARNING ∧
    mapSeverityToLevel none = ReportLevel.INFO ∧
    (∀ errs : List ValidationError,
      (convertErrorsToEntries errs).map (fun en => en.level) =
        errs.map (fun e => mapSeverityToLevel (some e.severity))) ∧
    (∀ c : String, alookup (calculateMetrics batch_results).error_counts c =
      (if (((batch_results.map (fun br => br.errors)).flatten).filter
          (fun e => e.code == c)).length = 0 then none
       else some ((((batch_results.map (fun br => br.errors)).flatten).filter
          (fun e => e.code == c)).length))) ∧
    (∀ k : String, alookup (calculateMetrics batch_results).severity_counts k =
      (if (((batch_results.map (fun br => br.errors)).flatten).filter
          (fun e => severityValue e.severity == k)).length = 0 then none
       else some ((((batch_results.map (fun br => br.errors)).flatten).filter
          (fun e => severityValue e.severity == k)).length))) ∧
    (alookup (calculateMetrics batch_results).identificador_counts
        "personInfo_person-id-external" =
      (if ((batch_results.map (fun br => br.errors)).flatten).length = 0
       then none
       else some (((batch_results.map (fun br => br.errors)).flatten).length))) ∧
    (∀ k : String, k ≠ "personInfo_person-id-external" →
      alookup (calculateMetrics batch_results).identificador_counts k = none) ∧
    (calculateMetrics batch_results).total_batches = batch_results.length := by
  have hbase := foldl_metricsBatchStep_counts batch_results {}
  refine ⟨rfl, rfl, rfl, rfl, ?_, ?_, ?_, ?_, ?_, ?_⟩
  · intro errs
    simp [convertErrorsToEntries]
  · intro c
    rw [calculateMetrics, foldl_metricsStep_error_counts,
      foldl_bump_lookup (fun e : ValidationError => e.code), hbase.1]
    rfl
  · intro k
    rw [calculateMetrics, foldl_metricsStep_severity_counts,
      foldl_bump_lookup (fun e : ValidationError => severityValue e.severity),
      hbase.2.1]
    rfl
  · rw [calculateMetrics, foldl_metricsStep_identificador_counts,
      foldl_bump_lookup (fun _ : ValidationError =>
        "personInfo_person-id-external"), hbase.2.2.1]
    simp only [beq_self_eq_true, List.filter_true]
    rfl
  · intro k hk
    rw [calculateMetrics, foldl_metricsStep_identificador_counts,
      foldl_bump_const_other _ _ _ _ hk, hbase.2.2.1]
    rfl
  · rw [calculateMetrics, foldl_metricsStep_total_batches, hbase.2.2.2]
    simp

/-- Witness for C9 (amended) on one concrete batch holding a single
WARNING error with code `W`. -/
theorem claim_C9_witness :
    alookup (calculateMetrics [⟨0, 3,
      [{ code := "W", severity := ValidationSeverity.WARNING,
         scope := ValidationScope.GLOBAL }]⟩]).identificador_counts
      "other-key" = none :=
  (claim_C9_report_aggregation [⟨0, 3,
    [{ code := "W", severity := ValidationSeverity.WARNING,
       scope := ValidationScope.GLOBAL }]⟩]).2.2.2.2.2.2.2.2.1
    "other-key" (by decide)

/-! ## Metadata adapter lemmas (claim C2) -/

theorem alookup_amodify_self {κ α : Type} [DecidableEq κ] (l : List (κ × α)) (k : κ)
    (f : α → α) : alookup (amodify l k f) k = (alookup l k).map f := by
  induction l with
  | nil => simp [amodify, alookup]
  | cons p rest ih =>
    obtain ⟨k', v⟩ := p
    by_cases h : k' = k <;> simp [amodify, alookup, h, ih]

theorem alookup_amodify_ne {κ α : Type} [DecidableEq κ] (l : List (κ × α)) {k k' : κ}
    (f : α → α) (h : k' ≠ k) : alookup (amodify l k f) k' = alookup l k' := by
  have h' : ¬(k = k') := fun hh => h hh.symm
  induction l with
  | nil => simp [amodify, alookup]
  | cons p rest ih =>
    obtain ⟨k0, v0⟩ := p
    by_cases h0 : k0 = k
    · have h0' : ¬(k0 = k') := by rw [h0]; exact h'
      simp [amodify, alookup, h0, h0', h']
    · by_cases h1 : k0 = k' <;> simp [amodify, alookup, h0, h1, ih, h, h']

/-- A path is never equal to its own country-prefixed version. -/
theorem ne_country_prefixed (C p : Str) : p ≠ C ++ '_' :: p := by
  intro h
  have h2 := congrArg List.length h
  simp only [List.length_append, List.length_cons] at h2
  omega

theorem entityAddField_is_cs (em : EntityMetadata) (fid : Str) (md : FieldMetadata)
    (req : Bool) : (entityAddField em fid md req).is_country_specific =
      em.is_country_specific := rfl

theorem entityAddField_cc (em : EntityMetadata) (fid : Str) (md : FieldMetadata)
    (req : Bool) : (entityAddField em fid md req).country_code = em.country_code := rfl

theorem fieldTag_not_element :
    strContainsSub "hris-element".toList (strLower "hris-field".toList) = false := by
  decide

theorem fieldTag_is_field :
    strContainsSub "hris-field".toList (strLower "hris-field".toList) = true := by
  decide

theorem elementTag_is_element :
    strContainsSub "hris-element".toList (strLower "hris-element".toList) = true := by
  decide

/-- On an `hris-field` node the walk dispatches to the field branch. -/
theorem processNode_field (fid : Str) (a : List (String × Str)) (pe : Option Str)
    (ctx : MetadataContext) :
    processNode (mkFieldNode (fid, a)) pe ctx =
      processField (mkFieldNode (fid, a)) pe ctx := by
  have hA : ¬(strContainsSub "hris-element".toList
      (strLower "hris-field".toList) = true) := by decide
  have hB : strContainsSub "hris-field".toList
      (strLower "hris-field".toList) = true := by decide
  simp only [processNode, mkFieldNode]
  rw [if_neg hA, if_pos hB]

/-- One field under a country-scoped parent entity: the dual-path insert,
and the parent entity gains the internal field. -/
theorem processField_csf_step (parent C fid : Str) (a : List (String × Str))
    (ctx : MetadataContext) (em : EntityMetadata)
    (hfid : fid ≠ [])
    (hem : alookup ctx.entities parent = some em)
    (hcs : em.is_country_specific = true)
    (hcc : em.country_code = some C)
    (hC : C ≠ []) :
    (processField (mkFieldNode (fid, a)) (some parent) ctx).1 = some parent ∧
    (processField (mkFieldNode (fid, a)) (some parent) ctx).2.field_by_full_path =
      aset (aset ctx.field_by_full_path (parent ++ '_' :: fid)
        (csfInternalMeta parent C fid a))
        (C ++ '_' :: parent ++ '_' :: fid) (csfCsvMeta parent C fid a) ∧
    alookup (processField (mkFieldNode (fid, a)) (some parent) ctx).2.entities parent =
      some (entityAddField em fid (csfInternalMeta parent C fid a) (attrRequired a)) := by
  have htruthy : pyTruthyOpt (some C) = true := by
    cases C with
    | nil => exact absurd rfl hC
    | cons c cs => rfl
  have hne : parent ≠ C ++ '_' :: parent := ne_country_prefixed C parent
  have hstep : processField (mkFieldNode (fid, a)) (some parent) ctx =
      (some parent,
        { ctx with
          field_by_full_path := (aset (aset ctx.field_by_full_path
            (parent ++ '_' :: fid) (csfInternalMeta parent C fid a))
            (C ++ '_' :: parent ++ '_' :: fid) (csfCsvMeta parent C fid a))
          entities := (amodify (amodify
            (if alookup ctx.entities (C ++ '_' :: parent) = none then
              aset ctx.entities (C ++ '_' :: parent)
                { entity_id := C ++ '_' :: parent
                  is_country_specific := true
                  country_code := some C }
            else ctx.entities) parent
            (fun em' => entityAddField em' fid (csfInternalMeta parent C fid a)
              (attrRequired a))) (C ++ '_' :: parent)
            (fun em' => entityAddField em' fid (csfCsvMeta parent C fid a)
              (attrRequired a))) }) := by
    by_cases h2 : alookup ctx.entities (C ++ '_' :: parent) = none
    · simp [processField, mkFieldNode, Node.technical_id, Node.attributes, hfid,
        hem, hcs, hcc, htruthy, h2, entityAddField, csfInternalMeta, csfCsvMeta]
    · simp [processField, mkFieldNode, Node.technical_id, Node.attributes, hfid,
        hem, hcs, hcc, htruthy, h2, entityAddField, csfInternalMeta, csfCsvMeta]
  refine ⟨by rw [hstep], by rw [hstep], ?_⟩
  rw [hstep]
  show alookup (amodify (amodify _ parent _) (C ++ '_' :: parent) _) parent = _
  rw [alookup_amodify_ne _ _ hne, alookup_amodify_self]
  by_cases h2 : alookup ctx.entities (C ++ '_' :: parent) = none
  · rw [if_pos h2, alookup_aset_ne _ _ hne, hem]
    rfl
  · rw [if_neg h2, hem]
    rfl

/-- One field under a non-country-scoped parent entity: the single
path insert, and the parent entity gains the field. -/
theorem processField_noncsf_step (parent fid : Str) (a : List (String × Str))
    (ctx : MetadataContext) (em : EntityMetadata)
    (hfid : fid ≠ [])
    (hem : alookup ctx.entities parent = some em)
    (hcs : em.is_country_specific = false) :
    (processField (mkFieldNode (fid, a)) (some parent) ctx).1 = some parent ∧
    (processField (mkFieldNode (fid, a)) (some parent) ctx).2.field_by_full_path =
      aset ctx.field_by_full_path (parent ++ '_' :: fid) (nonCsfMeta parent fid a) ∧
    alookup (processField (mkFieldNode (fid, a)) (some parent) ctx).2.entities parent =
      some (entityAddField em fid (nonCsfMeta parent fid a) (attrRequired a)) := by
  have hstep : processField (mkFieldNode (fid, a)) (some parent) ctx =
      (some parent,
        { ctx with
          field_by_full_path := (aset ctx.field_by_full_path (parent ++ '_' :: fid)
            (nonCsfMeta parent fid a))
          entities := (amodify ctx.entities parent
            (fun em' => entityAddField em' fid (nonCsfMeta parent fid a)
              (attrRequired a))) }) := by
    simp [processField, processField.processFieldNonCsf, mkFieldNode,
      Node.technical_id, Node.attributes, hfid, hem, hcs, entityAddField,
      nonCsfMeta]
  refine ⟨by rw [hstep], by rw [hstep], ?_⟩
  rw [hstep]
  show alookup (amodify _ parent _) parent = _
  rw [alookup_amodify_self, hem]
  rfl

/-- Folding dual-path inserts does not disturb a key distinct from all
inserted paths. -/
theorem foldl_daset_preserve {β α : Type} (k1 k2 : β → Str) (v1 v2 : β → α) :
    ∀ (l : List β) (init : List (Str × α)) (k : Str),
    (∀ f ∈ l, k1 f ≠ k ∧ k2 f ≠ k) →
    alookup (l.foldl (fun fb x => aset (aset fb (k1 x) (v1 x)) (k2 x) (v2 x)) init) k
      = alookup init k := by
  intro l
  induction l with
  | nil => intro init k _; rfl
  | cons x rest ih =>
    intro init k hk
    have hx := hk x (by simp)
    have hrest : ∀ f ∈ rest, k1 f ≠ k ∧ k2 f ≠ k := fun f hf => hk f (by simp [hf])
    simp only [List.foldl_cons]
    rw [ih _ k hrest, alookup_aset_ne _ _ hx.2.symm, alookup_aset_ne _ _ hx.1.symm]

/-- In a fold of dual-path inserts with pairwise-distinct paths, each
element's two paths resolve to its two values. -/
theorem foldl_daset_lookup {β α : Type} (k1 k2 : β → Str) (v1 v2 : β → α) :
    ∀ (l : List β) (init : List (Str × α)),
    (l.map k1).Nodup → (l.map k2).Nodup →
    (∀ f ∈ l, ∀ g ∈ l, k1 f ≠ k2 g) →
    ∀ f ∈ l,
      alookup (l.foldl (fun fb x => aset (aset fb (k1 x) (v1 x)) (k2 x) (v2 x)) init)
        (k1 f) = some (v1 f) ∧
      alookup (l.foldl (fun fb x => aset (aset fb (k1 x) (v1 x)) (k2 x) (v2 x)) init)
        (k2 f) = some (v2 f) := by
  intro l
  induction l with
  | nil => intro init _ _ _ f hf; cases hf
  | cons x rest ih =>
    intro init h11 h22 h12 f hf
    rw [List.map_cons] at h11 h22
    obtain ⟨hx1, h11'⟩ := List.nodup_cons.mp h11
    obtain ⟨hx2, h22'⟩ := List.nodup_cons.mp h22
    simp only [List.foldl_cons]
    rcases List.mem_cons.mp hf with heq | hf'
    · subst heq
      have hp1 : ∀ g ∈ rest, k1 g ≠ k1 f ∧ k2 g ≠ k1 f := by
        intro g hg
        refine ⟨fun hgg => hx1 ?_, (h12 f (by simp) g (by simp [hg])).symm⟩
        rw [← hgg]
        exact List.mem_map_of_mem k1 hg
      have hp2 : ∀ g ∈ rest, k1 g ≠ k2 f ∧ k2 g ≠ k2 f := by
        intro g hg
        refine ⟨h12 g (by simp [hg]) f (by simp), fun hgg => hx2 ?_⟩
        rw [← hgg]
        exact List.mem_map_of_mem k2 hg
      constructor
      · rw [foldl_daset_preserve k1 k2 v1 v2 rest _ (k1 f) hp1,
          alookup_aset_ne _ _ (h12 f (by simp) f (by simp)), alookup_aset_self]
      · rw [foldl_daset_preserve k1 k2 v1 v2 rest _ (k2 f) hp2, alookup_aset_self]
    · exact ih _ h11' h22'
        (fun p hp q hq => h12 p (by simp [hp]) q (by simp [hq])) f hf'

/-- Every key present after a fold of dual-path inserts was present
initially or is one of the inserted paths. -/
theorem foldl_daset_domain {β α : Type} (k1 k2 : β → Str) (v1 v2 : β → α) :
    ∀ (l : List β) (init : List (Str × α)) (k : Str),
    (alookup (l.foldl (fun fb x => aset (aset fb (k1 x) (v1 x)) (k2 x) (v2 x)) init)
      k).isSome →
    (alookup init k).isSome ∨ k ∈ l.map k1 ∨ k ∈ l.map k2 := by
  intro l
  induction l with
  | nil => intro init k h; exact Or.inl h
  | cons x rest ih =>
    intro init k h
    simp only [List.foldl_cons] at h
    rcases ih _ k h with h' | h' | h'
    · rcases alookup_isSome_aset _ _ _ _ h' with heq | h''
      · right; right; simp [heq]
      · rcases alookup_isSome_aset _ _ _ _ h'' with heq | h3
        · right; left; simp [heq]
        · exact Or.inl h3
    · right; left; simp [h']
    · right; right; simp [h']

/-- Single-path analogue of `foldl_daset_preserve`. -/
theorem foldl_saset_preserve {β α : Type} (k1 : β → Str) (v1 : β → α) :
    ∀ (l : List β) (init : List (Str × α)) (k : Str),
    (∀ f ∈ l, k1 f ≠ k) →
    alookup (l.foldl (fun fb x => aset fb (k1 x) (v1 x)) init) k = alookup init k := by
  intro l
  induction l with
  | nil => intro init k _; rfl
  | cons x rest ih =>
    intro init k hk
    simp only [List.foldl_cons]
    rw [ih _ k (fun f hf => hk f (by simp [hf])),
      alookup_aset_ne _ _ (hk x (by simp)).symm]

/-- Single-path analogue of `foldl_daset_lookup`. -/
theorem foldl_saset_lookup {β α : Type} (k1 : β → Str) (v1 : β → α) :
    ∀ (l : List β) (init : List (Str × α)),
    (l.map k1).Nodup →
    ∀ f ∈ l,
      alookup (l.foldl (fun fb x => aset fb (k1 x) (v1 x)) init) (k1 f)
        = some (v1 f) := by
  intro l
  induction l with
  | nil => intro init _ f hf; cases hf
  | cons x rest ih =>
    intro init h11 f hf
    rw [List.map_cons] at h11
    obtain ⟨hx1, h11'⟩ := List.nodup_cons.mp h11
    simp only [List.foldl_cons]
    rcases List.mem_cons.mp hf with heq | hf'
    · subst heq
      have hp1 : ∀ g ∈ rest, k1 g ≠ k1 f := by
        intro g hg hgg
        apply hx1
        rw [← hgg]
        exact List.mem_map_of_mem k1 hg
      rw [foldl_saset_preserve k1 v1 rest _ (k1 f) hp1, alookup_aset_self]
    · exact ih _ h11' f hf'

/-- Single-path analogue of `foldl_daset_domain`. -/
theorem foldl_saset_domain {β α : Type} (k1 : β → Str) (v1 : β → α) :
    ∀ (l : List β) (init : List (Str × α)) (k : Str),
    (alookup (l.foldl (fun fb x => aset fb (k1 x) (v1 x)) init) k).isSome →
    (alookup init k).isSome ∨ k ∈ l.map k1 := by
  intro l
  induction l with
  | nil => intro init k h; exact Or.inl h
  | cons x rest ih =>
    intro init k h
    simp only [List.foldl_cons] at h
    rcases ih _ k h with h' | h'
    · rcases alookup_isSome_aset _ _ _ _ h' with heq | h''
      · right; simp [heq]
      · exact Or.inl h''
    · right; simp [h']

/-- The children loop over the field nodes of a country-scoped element:
the index receives the dual-path fold and the parent entity stays
country-scoped throughout. -/
theorem processChildren_csf (parent C : Str) (hC : C ≠ []) :
    ∀ (fields : List (Str × List (String × Str))) (ctx : MetadataContext)
      (em : EntityMetadata),
    alookup ctx.entities parent = some em →
    em.is_country_specific = true →
    em.country_code = some C →
    (∀ f ∈ fields, f.1 ≠ []) →
    (processChildren (fields.map mkFieldNode) (some parent) ctx).1 = some parent ∧
    (processChildren (fields.map mkFieldNode) (some parent) ctx).2.field_by_full_path
      = fields.foldl (fun fb f =>
          aset (aset fb (parent ++ '_' :: f.1) (csfInternalMeta parent C f.1 f.2))
            (C ++ '_' :: parent ++ '_' :: f.1) (csfCsvMeta parent C f.1 f.2))
          ctx.field_by_full_path := by
  intro fields
  induction fields with
  | nil =>
    intro ctx em hem hcs hcc _
    exact ⟨rfl, rfl⟩
  | cons f rest ih =>
    intro ctx em hem hcs hcc hids
    obtain ⟨fid, a⟩ := f
    have hstep := processField_csf_step parent C fid a ctx em
      (hids (fid, a) (by simp)) hem hcs hcc hC
    have hrest := ih (processField (mkFieldNode (fid, a)) (some parent) ctx).2
      (entityAddField em fid (csfInternalMeta parent C fid a) (attrRequired a))
      hstep.2.2
      (by rw [entityAddField_is_cs]; exact hcs)
      (by rw [entityAddField_cc]; exact hcc)
      (fun g hg => hids g (by simp [hg]))
    have hgoalrw : processChildren (((fid, a) :: rest).map mkFieldNode)
        (some parent) ctx
        = processChildren (rest.map mkFieldNode) (some parent)
            (processField (mkFieldNode (fid, a)) (some parent) ctx).2 := by
      simp only [List.map_cons, processChildren, processNode_field]
      rw [hstep.1]
    rw [hgoalrw, List.foldl_cons]
    exact ⟨hrest.1, by rw [hrest.2, hstep.2.1]⟩

/-- The children loop over the field nodes of a non-country-scoped
element: single-path fold, the parent entity stays non-scoped. -/
theorem processChildren_noncsf (parent : Str) :
    ∀ (fields : List (Str × List (String × Str))) (ctx : MetadataContext)
      (em : EntityMetadata),
    alookup ctx.entities parent = some em →
    em.is_country_specific = false →
    (∀ f ∈ fields, f.1 ≠ []) →
    (processChildren (fields.map mkFieldNode) (some parent) ctx).1 = some parent ∧
    (processChildren (fields.map mkFieldNode) (some parent) ctx).2.field_by_full_path
      = fields.foldl (fun fb f =>
          aset fb (parent ++ '_' :: f.1) (nonCsfMeta parent f.1 f.2))
          ctx.field_by_full_path := by
  intro fields
  induction fields with
  | nil =>
    intro ctx em hem hcs _
    exact ⟨rfl, rfl⟩
  | cons f rest ih =>
    intro ctx em hem hcs hids
    obtain ⟨fid, a⟩ := f
    have hstep := processField_noncsf_step parent fid a ctx em
      (hids (fid, a) (by simp)) hem hcs
    have hrest := ih (processField (mkFieldNode (fid, a)) (some parent) ctx).2
      (entityAddField em fid (nonCsfMeta parent fid a) (attrRequired a))
      hstep.2.2
      (by rw [entityAddField_is_cs]; exact hcs)
      (fun g hg => hids g (by simp [hg]))
    have hgoalrw : processChildren (((fid, a) :: rest).map mkFieldNode)
        (some parent) ctx
        = processChildren (rest.map mkFieldNode) (some parent)
            (processField (mkFieldNode (fid, a)) (some parent) ctx).2 := by
      simp only [List.map_cons, processChildren, processNode_field]
      rw [hstep.1]
    rw [hgoalrw, List.foldl_cons]
    exact ⟨hrest.1, by rw [hrest.2, hstep.2.1]⟩

/-- An `hris-element` node with origin `csf` and a resolved country
creates a country-scoped entity and hands its children a context holding
just that entity. -/
theorem csfElementRun_resolved (eid C : Str) (attrs : List (String × Str))
    (fields : List (Str × List (String × Str)))
    (heid : eid ≠ []) (hC : C ≠ []) (hCU : C ≠ "UNKNOWN".toList)
    (horigin : alookup attrs "data-origin" = some "csf".toList)
    (hcountry : alookup attrs "data-country" = some C) :
    csfElementRun eid attrs fields =
      (processChildren (fields.map mkFieldNode) (some eid)
        { entities := ([(eid,
            { entity_id := eid
              is_country_specific := true
              country_code := some C })]) }).2 := by
  have hel : processElementNode (Node.mk "hris-element".toList eid "element" attrs
      (fields.map mkFieldNode)) none {} =
      (some eid,
        { entities := ([(eid,
            { entity_id := eid
              is_country_specific := true
              country_code := some C })]) }) := by
    simp [processElementNode, Node.technical_id, Node.attributes, heid, hcountry,
      horigin, hC, hCU, alookup, aset]
    exact hCU
  rw [csfElementRun]
  simp only [processNode]
  rw [if_pos elementTag_is_element, hel]

/-- An `hris-element` node with origin `csf` but an unresolved country
(absent, empty, or `UNKNOWN`) creates a non-scoped entity. -/
theorem csfElementRun_unresolved (eid : Str) (attrs : List (String × Str))
    (fields : List (Str × List (String × Str)))
    (heid : eid ≠ [])
    (horigin : alookup attrs "data-origin" = some "csf".toList)
    (hcountry : alookup attrs "data-country" = none ∨
      alookup attrs "data-country" = some [] ∨
      alookup attrs "data-country" = some "UNKNOWN".toList) :
    csfElementRun eid attrs fields =
      (processChildren (fields.map mkFieldNode) (some eid)
        { entities := ([(eid,
            { entity_id := eid
              is_country_specific := false
              country_code := none })]) }).2 := by
  have hel : processElementNode (Node.mk "hris-element".toList eid "element" attrs
      (fields.map mkFieldNode)) none {} =
      (some eid,
        { entities := ([(eid,
            { entity_id := eid
              is_country_specific := false
              country_code := none })]) }) := by
    rcases hcountry with hc | hc | hc <;>
      simp [processElementNode, Node.technical_id, Node.attributes, heid, hc,
        horigin, alookup, aset]
  rw [csfElementRun]
  simp only [processNode]
  rw [if_pos elementTag_is_element, hel]

/-- C2 (confirmed): for a schema element with origin `csf` and a resolved
(non-empty, non-UNKNOWN) country code, every field under it produces two
entries in the full-path index — the internal path `entity_field` and the
CSV-facing path `COUNTRY_entity_field` — both resolving to metadata with
the same required/type/max-length constraints, and no other keys exist;
for an element with origin `csf` but an unresolved country, each field
yields a single `entity_field` entry and no other keys exist. -/
theorem claim_C2_dual_path_metadata :
    (∀ (eid C : Str) (attrs : List (String × Str))
        (fields : List (Str × List (String × Str))),
      eid ≠ [] → C ≠ [] → C ≠ "UNKNOWN".toList →
      alookup attrs "data-origin" = some "csf".toList →
      alookup attrs "data-country" = some C →
      (∀ f ∈ fields, f.1 ≠ []) →
      (fields.map (fun f => eid ++ '_' :: f.1)).Nodup →
      (fields.map (fun f => C ++ '_' :: eid ++ '_' :: f.1)).Nodup →
      (∀ f ∈ fields, ∀ g ∈ fields,
        eid ++ '_' :: f.1 ≠ C ++ '_' :: eid ++ '_' :: g.1) →
      (∀ f ∈ fields,
        alookup (csfElementRun eid attrs fields).field_by_full_path
          (eid ++ '_' :: f.1) = some (csfInternalMeta eid C f.1 f.2) ∧
        alookup (csfElementRun eid attrs fields).field_by_full_path
          (C ++ '_' :: eid ++ '_' :: f.1) = some (csfCsvMeta eid C f.1 f.2) ∧
        (csfCsvMeta eid C f.1 f.2).is_required
          = (csfInternalMeta eid C f.1 f.2).is_required ∧
        (csfCsvMeta eid C f.1 f.2).data_type
          = (csfInternalMeta eid C f.1 f.2).data_type ∧
        (csfCsvMeta eid C f.1 f.2).max_length
          = (csfInternalMeta eid C f.1 f.2).max_length) ∧
      (∀ k, (alookup (csfElementRun eid attrs fields).field_by_full_path k).isSome →
        k ∈ fields.map (fun f => eid ++ '_' :: f.1) ∨
        k ∈ fields.map (fun f => C ++ '_' :: eid ++ '_' :: f.1))) ∧
    (∀ (eid : Str) (attrs : List (String × Str))
        (fields : List (Str × List (String × Str))),
      eid ≠ [] →
      alookup attrs "data-origin" = some "csf".toList →
      (alookup attrs "data-country" = none ∨
        alookup attrs "data-country" = some [] ∨
        alookup attrs "data-country" = some "UNKNOWN".toList) →
      (∀ f ∈ fields, f.1 ≠ []) →
      (fields.map (fun f => eid ++ '_' :: f.1)).Nodup →
      (∀ f ∈ fields,
        alookup (csfElementRun eid attrs fields).field_by_full_path
          (eid ++ '_' :: f.1) = some (nonCsfMeta eid f.1 f.2)) ∧
      (∀ k, (alookup (csfElementRun eid attrs fields).field_by_full_path k).isSome →
        k ∈ fields.map (fun f => eid ++ '_' :: f.1))) := by
  constructor
  · intro eid C attrs fields heid hC hCU horigin hcountry hids h11 h22 h12
    have hrun := csfElementRun_resolved eid C attrs fields heid hC hCU
      horigin hcountry
    have hch := processChildren_csf eid C hC fields
      { entities := ([(eid,
          { entity_id := eid
            is_country_specific := true
            country_code := some C })]) }
      { entity_id := eid
        is_country_specific := true
        country_code := some C }
      (by simp [alookup]) rfl rfl hids
    constructor
    · intro f hf
      have hlk := foldl_daset_lookup (fun f => eid ++ '_' :: f.1)
        (fun f => C ++ '_' :: eid ++ '_' :: f.1)
        (fun f => csfInternalMeta eid C f.1 f.2)
        (fun f => csfCsvMeta eid C f.1 f.2) fields [] h11 h22 h12 f hf
      refine ⟨?_, ?_, rfl, rfl, rfl⟩
      · rw [hrun, hch.2]
        exact hlk.1
      · rw [hrun, hch.2]
        exact hlk.2
    · intro k hk
      rw [hrun, hch.2] at hk
      rcases foldl_daset_domain (fun f => eid ++ '_' :: f.1)
        (fun f => C ++ '_' :: eid ++ '_' :: f.1)
        (fun f => csfInternalMeta eid C f.1 f.2)
        (fun f => csfCsvMeta eid C f.1 f.2) fields [] k hk with h0 | h1 | h2
      · exact absurd h0 (by simp [alookup])
      · exact Or.inl h1
      · exact Or.inr h2
  · intro eid attrs fields heid horigin hcountry hids h11
    have hrun := csfElementRun_unresolved eid attrs fields heid horigin hcountry
    have hch := processChildren_noncsf eid fields
      { entities := ([(eid,
          { entity_id := eid
            is_country_specific := false
            country_code := none })]) }
      { entity_id := eid
        is_country_specific := false
        country_code := none }
      (by simp [alookup]) rfl hids
    constructor
    · intro f hf
      have hlk := foldl_saset_lookup (fun f => eid ++ '_' :: f.1)
        (fun f => nonCsfMeta eid f.1 f.2) fields [] h11 f hf
      rw [hrun, hch.2]
      exact hlk
    · intro k hk
      rw [hrun, hch.2] at hk
      rcases foldl_saset_domain (fun f => eid ++ '_' :: f.1)
        (fun f => nonCsfMeta eid f.1 f.2) fields [] k hk with h0 | h1
      · exact absurd h0 (by simp [alookup])
      · exact h1

/-- Witness for C2: a `personInfo` element for country MEX with one
field resolves on both paths, and a `homeAddress` element with country
`UNKNOWN` resolves only on the internal path. -/
theorem claim_C2_witness :
    alookup (csfElementRun "personInfo".toList
        [("data-origin", "csf".toList), ("data-country", "MEX".toList)]
        [("person-id".toList, [("required", "true".toList)])]).field_by_full_path
      ("personInfo".toList ++ '_' :: "person-id".toList)
      = some (csfInternalMeta "personInfo".toList "MEX".toList "person-id".toList
          [("required", "true".toList)]) ∧
    alookup (csfElementRun "homeAddress".toList
        [("data-origin", "csf".toList), ("data-country", "UNKNOWN".toList)]
        [("street".toList, [])]).field_by_full_path
      ("homeAddress".toList ++ '_' :: "street".toList)
      = some (nonCsfMeta "homeAddress".toList "street".toList []) := by
  constructor
  · exact ((claim_C2_dual_path_metadata.1 "personInfo".toList "MEX".toList
      [("data-origin", "csf".toList), ("data-country", "MEX".toList)]
      [("person-id".toList, [("required", "true".toList)])]
      (by decide) (by decide) (by decide) (by decide) (by decide) (by decide)
      (by decide) (by decide) (by decide)).1
      ("person-id".toList, [("required", "true".toList)]) (by decide)).1
  · exact (claim_C2_dual_path_metadata.2 "homeAddress".toList
      [("data-origin", "csf".toList), ("data-country", "UNKNOWN".toList)]
      [("street".toList, [])]
      (by decide) (by decide) (by decide) (by decide) (by decide)).1
      ("street".toList, []) (by decide)

end DxSentinel
